import Mathlib

/-!
# Product service (pkg/service/v1/product-service.go)

A shallow embedding of the five gRPC handlers `Create`, `Read`, `Update`, `Delete`
and `ReadAll` of `productServiceServer`, of the helpers `checkAPI`, `connect` and
`createTable`, and of the pieces of `ptypes`, `database/sql` and the `Product` table
that the handlers talk to.

* Go's `(resp, err)` results are `Outcome` values; a nil-pointer dereference of
  `req.Product` is the outcome `panic`.
* The database is reached through a `Driver σ`: the calls `db.Conn`, `c.ExecContext`,
  `c.QueryContext` and `c.Close` as functions on a state `σ`.  Every call a handler makes
  is appended, with what it returned, to the `trace` of the `World`.
* `tableDriver` is the driver of a `Product` table held as a list of rows with an
  AUTO_INCREMENT counter; it interprets the seven SQL texts of the source.  The table keeps
  `PRIMARY KEY (ID)` and the whole-second precision of `Date timestamp`; the widths of the
  `varchar` columns and the range of `timestamp` are not part of the model.
-/

namespace ProductService

/-! ## Status codes and results -/

/-- The status codes of `google.golang.org/grpc/codes`, in the order of their numbers. -/
inductive Code where
  | OK
  | Canceled
  | Unknown
  | InvalidArgument
  | DeadlineExceeded
  | NotFound
  | AlreadyExists
  | PermissionDenied
  | ResourceExhausted
  | FailedPrecondition
  | Aborted
  | OutOfRange
  | Unimplemented
  | Internal
  | Unavailable
  | DataLoss
  | Unauthenticated
  deriving DecidableEq, Repr

/-- A gRPC status error as built by `status.Error` and `status.Errorf`. -/
structure Status where
  code : Code
  msg : String
  deriving DecidableEq, Repr

/-- What a handler returns: `ok resp` is `(resp, nil)`, `err st` is `(nil, st)`, and
`panic` is the run-time panic of dereferencing a nil `req.Product`. -/
inductive Outcome (α : Type) where
  | ok (resp : α)
  | err (st : Status)
  | panic
  deriving DecidableEq, Repr

/-- The status code of an outcome that is an error. -/
def Outcome.code {α : Type} : Outcome α → Option Code
  | .err st => some st.code
  | _ => none

/-! ## Time and wire timestamps (time, ptypes) -/

/-- A Go `time.Time` in UTC: seconds since the Unix epoch (`t.Unix()`) and the nanosecond
within that second (`t.Nanosecond()`, always in `[0, 1e9)`). -/
structure Time where
  sec : Int
  nsec : Fin 1000000000
  deriving DecidableEq, Repr

/-- The wire timestamp `timestamp.Timestamp`. -/
structure Timestamp where
  Seconds : Int
  Nanos : Int
  deriving DecidableEq, Repr

/-- Go `time.Unix(sec, nsec)`: nanoseconds outside `[0, 1e9)` are carried into the seconds. -/
def time.Unix (sec nsec : Int) : Time :=
  ⟨sec + nsec / 1000000000, ⟨(nsec % 1000000000).toNat, by omega⟩⟩

/-- Seconds of 0001-01-01T00:00:00Z. -/
def ptypes.minValidSeconds : Int := -62135596800

/-- Seconds of 10000-01-01T00:00:00Z. -/
def ptypes.maxValidSeconds : Int := 253402300800

/-- Rendering of a timestamp inside the error texts of `validateTimestamp`. -/
def ptypes.render (ts : Timestamp) : String :=
  "seconds:" ++ toString ts.Seconds ++ " nanos:" ++ toString ts.Nanos

/-- Go `validateTimestamp`: `none` when the timestamp is valid, else the error text. -/
def ptypes.validateTimestamp : Option Timestamp → Option String
  | none => some "timestamp: nil Timestamp"
  | some ts =>
    if ts.Seconds < ptypes.minValidSeconds then
      some ("timestamp: " ++ ptypes.render ts ++ " before 0001-01-01")
    else if ts.Seconds ≥ ptypes.maxValidSeconds then
      some ("timestamp: " ++ ptypes.render ts ++ " after 10000-01-01")
    else if ts.Nanos < 0 ∨ ts.Nanos ≥ 1000000000 then
      some ("timestamp: " ++ ptypes.render ts ++ ": nanos not in range [0, 1e9)")
    else none

/-- Go `ptypes.Timestamp`: the time that `time.Unix` gives, together with the validation error. -/
def ptypes.Timestamp (ts : Option Timestamp) : Time × Option String :=
  (match ts with
   | none => time.Unix 0 0
   | some t => time.Unix t.Seconds t.Nanos,
   ptypes.validateTimestamp ts)

/-- Go `ptypes.TimestampProto`. -/
def ptypes.TimestampProto (t : Time) : Except String ProductService.Timestamp :=
  match ptypes.validateTimestamp (some ⟨t.sec, t.nsec.val⟩) with
  | some e => .error e
  | none => .ok ⟨t.sec, t.nsec.val⟩

/-! ## Messages of pkg/api/v1 -/

/-- The message `v1.ProductProto`. -/
structure ProductProto where
  Id : Int
  Name : String
  Price : String
  Creator : String
  Unit : String
  Category : String
  Description : String
  Date : Option Timestamp
  deriving DecidableEq, Repr

/-- The message `v1.CreateRequest`; `Product` is a pointer and may be nil. -/
structure CreateRequest where
  Api : String
  Product : Option ProductProto
  deriving DecidableEq, Repr

/-- The message `v1.CreateResponse`. -/
structure CreateResponse where
  Api : String
  Id : Int
  deriving DecidableEq, Repr

/-- The message `v1.ReadRequest`. -/
structure ReadRequest where
  Api : String
  Id : Int
  deriving DecidableEq, Repr

/-- The message `v1.ReadResponse`. -/
structure ReadResponse where
  Api : String
  Product : Option ProductProto
  deriving DecidableEq, Repr

/-- The message `v1.UpdateRequest`; `Product` is a pointer and may be nil. -/
structure UpdateRequest where
  Api : String
  Product : Option ProductProto
  deriving DecidableEq, Repr

/-- The message `v1.UpdateResponse`. -/
structure UpdateResponse where
  Api : String
  Updated : Int
  deriving DecidableEq, Repr

/-- The message `v1.DeleteRequest`. -/
structure DeleteRequest where
  Api : String
  Id : Int
  deriving DecidableEq, Repr

/-- The message `v1.DeleteResponse`. -/
structure DeleteResponse where
  Api : String
  Deleted : Int
  deriving DecidableEq, Repr

/-- The message `v1.ReadAllRequest`. -/
structure ReadAllRequest where
  Api : String
  deriving DecidableEq, Repr

/-- The message `v1.ReadAllResponse`; `Products` is a Go slice, `none` being the nil slice. -/
structure ReadAllResponse where
  Api : String
  Products : Option (List ProductProto)
  deriving DecidableEq, Repr

/-! ## The database interface (database/sql) -/

/-- The SQL texts that the handlers pass to `c.ExecContext`, with their arguments in the
order of the `?` placeholders.

* `probe`: `SELECT 1 FROM Product LIMIT 1 ;`
* `createTable`: `CREATE TABLE Product (ID bigint(20) NOT NULL AUTO_INCREMENT, ...)`
* `insert`: `INSERT INTO Product(Name, Price, Creator, Unit, Category, Description, Date)
  VALUES(?, ?, ?, ?, ?, ?, ?)`
* `update`: `UPDATE Product SET Name=?, Price=?, Unit=?, Category=?, Creator=?,
  Description=?, Date=? WHERE ID=?`
* `delete`: `DELETE FROM Product WHERE ID=?` -/
inductive Stmt where
  | probe
  | createTable
  | insert (a1 a2 a3 a4 a5 a6 : String) (a7 : Time)
  | update (a1 a2 a3 a4 a5 a6 : String) (a7 : Time) (a8 : Int)
  | delete (a1 : Int)
  deriving DecidableEq, Repr

/-- The SQL texts that the handlers pass to `c.QueryContext`.

* `selectByID`: `SELECT ID, Name, Price, Creator, Unit, Category, Description, Date
  FROM Product WHERE ID=?`
* `selectAll`: `SELECT ID, Name, Price, Creator, Unit, Category, Description, Date
  FROM Product` -/
inductive Query where
  | selectByID (a1 : Int)
  | selectAll
  deriving DecidableEq, Repr

deriving instance DecidableEq for Except

/-- A `sql.Result`: what `LastInsertId()` and `RowsAffected()` return. -/
structure Result where
  LastInsertId : Except String Int
  RowsAffected : Except String Int
  deriving DecidableEq

/-- The eight columns of one result row, by position in the SELECT list, as `rows.Scan`
converts them for destinations of the types `*int64`, six `*string` and `*time.Time`. -/
structure Cols where
  c1 : Int
  c2 : String
  c3 : String
  c4 : String
  c5 : String
  c6 : String
  c7 : String
  c8 : Time
  deriving DecidableEq, Repr

/-- A `sql.Rows`: the rows that `Next` steps through, each with what `Scan` returns for
it, and the error that `Err` reports once `Next` has returned false. -/
structure Rows where
  rows : List (Except String Cols)
  err : Option String
  deriving DecidableEq

/-- The database behind `s.db`, as functions on its state `σ`: `conn` is `db.Conn(ctx)`,
`exec` is `c.ExecContext`, `query` is `c.QueryContext` and `close` is `c.Close`. -/
structure Driver (σ : Type) where
  conn : σ → Except String Unit × σ
  exec : Stmt → σ → Except String Result × σ
  query : Query → σ → Except String Rows × σ
  close : σ → σ

/-- One call on the database made by a handler, with what the call returned. -/
inductive Event where
  | conn (r : Except String Unit)
  | exec (s : Stmt) (r : Except String Result)
  | query (q : Query) (r : Except String Rows)
  | rowsClose
  | close
  deriving DecidableEq

/-- The state a handler runs in: the database and the calls made on it so far. -/
structure World (σ : Type) where
  db : σ
  trace : List Event

/-- Call `c.ExecContext` and record it. -/
def ExecContext {σ : Type} (d : Driver σ) (s : Stmt) (w : World σ) :
    Except String Result × World σ :=
  ((d.exec s w.db).1, ⟨(d.exec s w.db).2, w.trace ++ [.exec s (d.exec s w.db).1]⟩)

/-- Call `c.QueryContext` and record it. -/
def QueryContext {σ : Type} (d : Driver σ) (q : Query) (w : World σ) :
    Except String Rows × World σ :=
  ((d.query q w.db).1, ⟨(d.query q w.db).2, w.trace ++ [.query q (d.query q w.db).1]⟩)

/-- Call `rows.Close` and record it. -/
def RowsClose {σ : Type} (w : World σ) : World σ :=
  ⟨w.db, w.trace ++ [.rowsClose]⟩

/-- Call `c.Close` and record it. -/
def Close {σ : Type} (d : Driver σ) (w : World σ) : World σ :=
  ⟨d.close w.db, w.trace ++ [.close]⟩

/-! ## The handlers (product-service.go) -/

/-- The constant `apiVersion`. -/
def apiVersion : String := "v1"

/-- Go `checkAPI`: `none` is the nil error. -/
def checkAPI (api : String) : Option Status :=
  if api.length > 0 then
    if apiVersion ≠ api then
      some ⟨.Unimplemented,
        "unsupported API version: service implements API version \x27" ++ apiVersion ++
          "\x27, but asked for \x27" ++ api ++ "\x27"⟩
    else none
  else none

/-- Go `connect`: lease a connection from the pool. -/
def connect {σ : Type} (d : Driver σ) (w : World σ) : Except Status Unit × World σ :=
  (match (d.conn w.db).1 with
   | .error e => .error ⟨.Unknown, "failed to connect to database-> " ++ e⟩
   | .ok _ => .ok (),
   ⟨(d.conn w.db).2, w.trace ++ [.conn (d.conn w.db).1]⟩)

/-- Go `createTable`: `none` is the nil error. -/
def createTable {σ : Type} (d : Driver σ) (w : World σ) : Option Status × World σ :=
  match ExecContext d .createTable w with
  | (.error e, w1) => (some ⟨.Unknown, "failed to create table -> " ++ e⟩, w1)
  | (.ok _, w1) => (none, w1)

/-- Lines 104-117 of `Create`: the reply to what the INSERT returned. -/
def Create.reply : Except String Result → Outcome CreateResponse
  | .error e => .err ⟨.Unknown, "failed to insert into Product-> " ++ e⟩
  | .ok res =>
    match res.LastInsertId with
    | .error e => .err ⟨.Unknown, "failed to retrieve id for created Product-> " ++ e⟩
    | .ok id => .ok ⟨apiVersion, id⟩

/-- Lines 101-117 of `Create`: the INSERT and the retrieval of the generated id. -/
def Create.insert {σ : Type} (d : Driver σ) (p : ProductProto) (date : Time) (w : World σ) :
    Outcome CreateResponse × World σ :=
  (Create.reply
    (ExecContext d (.insert p.Name p.Price p.Creator p.Unit p.Category p.Description date) w).1,
   (ExecContext d (.insert p.Name p.Price p.Creator p.Unit p.Category p.Description date) w).2)

/-- Lines 87-117 of `Create`: what runs between `defer c.Close()` and the return.  The
warning that is logged when the probe fails is not part of the state. -/
def Create.body {σ : Type} (d : Driver σ) (req : CreateRequest) (w : World σ) :
    Outcome CreateResponse × World σ :=
  match req.Product with
  | none => (.panic, w)
  | some p =>
    match ptypes.Timestamp p.Date with
    | (_, some e) => (.err ⟨.InvalidArgument, "date field has invalid format-> " ++ e⟩, w)
    | (date, none) =>
      match ExecContext d .probe w with
      | (.error _, w1) =>
        match createTable d w1 with
        | (some st, w2) => (.err st, w2)
        | (none, w2) => Create.insert d p date w2
      | (.ok _, w1) => Create.insert d p date w1

/-- Go `Create`. -/
def Create {σ : Type} (d : Driver σ) (req : CreateRequest) (w : World σ) :
    Outcome CreateResponse × World σ :=
  match checkAPI req.Api with
  | some st => (.err st, w)
  | none =>
    match connect d w with
    | (.error st, w1) => (.err st, w1)
    | (.ok _, w1) => ((Create.body d req w1).1, Close d (Create.body d req w1).2)

/-- Lines 142-169 of `Read`: stepping through the rows of the query. -/
def Read.rows (req : ReadRequest) (rows : Rows) : Outcome ReadResponse :=
  match rows.rows with
  | [] =>
    match rows.err with
    | some e => .err ⟨.Unknown, "failed to retrieve data from Product-> " ++ e⟩
    | none => .err ⟨.NotFound, "Product with ID=\x27" ++ toString req.Id ++ "\x27 is not found"⟩
  | r :: rest =>
    match r with
    | .error e => .err ⟨.Unknown, "failed to retrieve field values from Product row-> " ++ e⟩
    | .ok c =>
      match ptypes.TimestampProto c.c8 with
      | .error e => .err ⟨.Unknown, "date field has invalid format-> " ++ e⟩
      | .ok ts =>
        match rest with
        | _ :: _ =>
          .err ⟨.Unknown, "found multiple Product rows with ID=\x27" ++ toString req.Id ++ "\x27"⟩
        | [] =>
          .ok ⟨apiVersion, some
            { Id := c.c1, Name := c.c2, Price := c.c3, Creator := c.c4, Unit := c.c5,
              Category := c.c6, Description := c.c7, Date := some ts }⟩

/-- Lines 134-169 of `Read`: what runs between `defer c.Close()` and the return. -/
def Read.body {σ : Type} (d : Driver σ) (req : ReadRequest) (w : World σ) :
    Outcome ReadResponse × World σ :=
  match QueryContext d (.selectByID req.Id) w with
  | (.error e, w1) => (.err ⟨.Unknown, "failed to select from Product-> " ++ e⟩, w1)
  | (.ok rows, w1) => (Read.rows req rows, RowsClose w1)

/-- Go `Read`. -/
def Read {σ : Type} (d : Driver σ) (req : ReadRequest) (w : World σ) :
    Outcome ReadResponse × World σ :=
  match checkAPI req.Api with
  | some st => (.err st, w)
  | none =>
    match connect d w with
    | (.error st, w1) => (.err st, w1)
    | (.ok _, w1) => ((Read.body d req w1).1, Close d (Read.body d req w1).2)

/-- Lines 196-213 of `Update`: the reply to what the UPDATE returned, `id` being
`req.Product.Id`. -/
def Update.reply (id : Int) : Except String Result → Outcome UpdateResponse
  | .error e => .err ⟨.Unknown, "failed to update Product-> " ++ e⟩
  | .ok res =>
    match res.RowsAffected with
    | .error e => .err ⟨.Unknown, "failed to retrieve rows affected value-> " ++ e⟩
    | .ok rows =>
      if rows = 0 then
        .err ⟨.NotFound, "Product with ID=\x27" ++ toString id ++ "\x27 is not found"⟩
      else .ok ⟨apiVersion, rows⟩

/-- Lines 187-213 of `Update`: what runs between `defer c.Close()` and the return. -/
def Update.body {σ : Type} (d : Driver σ) (req : UpdateRequest) (w : World σ) :
    Outcome UpdateResponse × World σ :=
  match req.Product with
  | none => (.panic, w)
  | some p =>
    match ptypes.Timestamp p.Date with
    | (_, some e) => (.err ⟨.InvalidArgument, "date field has invalid format-> " ++ e⟩, w)
    | (date, none) =>
      (Update.reply p.Id (ExecContext d
          (.update p.Name p.Price p.Unit p.Category p.Creator p.Description date p.Id) w).1,
       (ExecContext d
          (.update p.Name p.Price p.Unit p.Category p.Creator p.Description date p.Id) w).2)

/-- Go `Update`. -/
def Update {σ : Type} (d : Driver σ) (req : UpdateRequest) (w : World σ) :
    Outcome UpdateResponse × World σ :=
  match checkAPI req.Api with
  | some st => (.err st, w)
  | none =>
    match connect d w with
    | (.error st, w1) => (.err st, w1)
    | (.ok _, w1) => ((Update.body d req w1).1, Close d (Update.body d req w1).2)

/-- Lines 232-249 of `Delete`: the reply to what the DELETE returned, `id` being `req.Id`. -/
def Delete.reply (id : Int) : Except String Result → Outcome DeleteResponse
  | .error e => .err ⟨.Unknown, "failed to delete Product-> " ++ e⟩
  | .ok res =>
    match res.RowsAffected with
    | .error e => .err ⟨.Unknown, "failed to retrieve rows affected value-> " ++ e⟩
    | .ok rows =>
      if rows = 0 then
        .err ⟨.NotFound, "Product with ID=\x27" ++ toString id ++ "\x27 is not found"⟩
      else .ok ⟨apiVersion, rows⟩

/-- Lines 230-249 of `Delete`: what runs between `defer c.Close()` and the return. -/
def Delete.body {σ : Type} (d : Driver σ) (req : DeleteRequest) (w : World σ) :
    Outcome DeleteResponse × World σ :=
  (Delete.reply req.Id (ExecContext d (.delete req.Id) w).1,
   (ExecContext d (.delete req.Id) w).2)

/-- Go `Delete`. -/
def Delete {σ : Type} (d : Driver σ) (req : DeleteRequest) (w : World σ) :
    Outcome DeleteResponse × World σ :=
  match checkAPI req.Api with
  | some st => (.err st, w)
  | none =>
    match connect d w with
    | (.error st, w1) => (.err st, w1)
    | (.ok _, w1) => ((Delete.body d req w1).1, Close d (Delete.body d req w1).2)

/-- Lines 273-285 of `ReadAll`: the loop `for rows.Next()` over the rows still to come,
`list` being the products appended so far. -/
def ReadAll.loop : List (Except String Cols) → List ProductProto →
    Except Status (List ProductProto)
  | [], list => .ok list
  | r :: rest, list =>
    match r with
    | .error e =>
      .error ⟨.Unknown, "failed to retrieve field values from Product row-> " ++ e⟩
    | .ok c =>
      match ptypes.TimestampProto c.c8 with
      | .error e => .error ⟨.Unknown, "date field has invalid format-> " ++ e⟩
      | .ok ts =>
        ReadAll.loop rest (list ++
          [{ Id := c.c1, Name := c.c2, Price := c.c3, Unit := c.c4, Category := c.c5,
             Creator := c.c6, Description := c.c7, Date := some ts }])

/-- Lines 273-294 of `ReadAll`: the loop, the check of `rows.Err()` and the response. -/
def ReadAll.rows (rows : Rows) : Outcome ReadAllResponse :=
  match ReadAll.loop rows.rows [] with
  | .error st => .err st
  | .ok list =>
    match rows.err with
    | some e => .err ⟨.Unknown, "failed to retrieve data from Product-> " ++ e⟩
    | none => .ok ⟨apiVersion, some list⟩

/-- Lines 266-294 of `ReadAll`: what runs between `defer c.Close()` and the return. -/
def ReadAll.body {σ : Type} (d : Driver σ) (w : World σ) :
    Outcome ReadAllResponse × World σ :=
  match QueryContext d .selectAll w with
  | (.error e, w1) => (.err ⟨.Unknown, "failed to select from Product-> " ++ e⟩, w1)
  | (.ok rows, w1) => (ReadAll.rows rows, RowsClose w1)

/-- Go `ReadAll`. -/
def ReadAll {σ : Type} (d : Driver σ) (req : ReadAllRequest) (w : World σ) :
    Outcome ReadAllResponse × World σ :=
  match checkAPI req.Api with
  | some st => (.err st, w)
  | none =>
    match connect d w with
    | (.error st, w1) => (.err st, w1)
    | (.ok _, w1) => ((ReadAll.body d w1).1, Close d (ReadAll.body d w1).2)

/-! ## The table Product -/

/-- One stored row of the table `Product`, by column name (the columns of `createTable`). -/
structure Row where
  ID : Int
  Name : String
  Price : String
  Creator : String
  Unit : String
  Category : String
  Description : String
  Date : Time
  deriving DecidableEq, Repr

/-- The table `Product`: its rows in storage order and the AUTO_INCREMENT counter of `ID`. -/
structure Table where
  rows : List Row
  nextID : Int
  deriving DecidableEq, Repr

/-- The database: `none` while the table `Product` does not exist. -/
structure DB where
  table : Option Table
  deriving DecidableEq, Repr

/-- What the column `Date timestamp` keeps of a time: the column is declared without
fractional seconds, so the value is cut to whole seconds. -/
def Table.stored (t : Time) : Time := ⟨t.sec, 0⟩

/-- The result of a statement that reports `n` affected rows and insert id `id`. -/
def Result.done (id n : Int) : Result := ⟨.ok id, .ok n⟩

/-- The row that `UPDATE Product SET Name=?, Price=?, Unit=?, Category=?, Creator=?,
Description=?, Date=? WHERE ID=?` leaves in place of `r`: the placeholders are bound in
the order of the SET list, and only rows whose `ID` is the last argument are touched. -/
def Table.updateRow (a1 a2 a3 a4 a5 a6 : String) (a7 : Time) (a8 : Int) (r : Row) : Row :=
  if r.ID = a8 then
    { r with Name := a1, Price := a2, Unit := a3, Category := a4, Creator := a5,
             Description := a6, Date := Table.stored a7 }
  else r

/-- The result row of `SELECT ID, Name, Price, Creator, Unit, Category, Description, Date`
for a stored row: the columns in the order of the SELECT list. -/
def Table.select (r : Row) : Cols :=
  ⟨r.ID, r.Name, r.Price, r.Creator, r.Unit, r.Category, r.Description, r.Date⟩

/-- The error text of a statement on a table that does not exist. -/
def Table.missing : String := "Error 1146: Table Product doesn\x27t exist"

/-- Execute one statement on the database.  INSERT takes the `ID` from the AUTO_INCREMENT
counter and is refused when that value is already a key (`PRIMARY KEY (ID)`).  `foundRows`
is the connection option that makes UPDATE report the rows matched by its WHERE clause;
without it UPDATE reports the rows whose stored values it changed. -/
def DB.exec (foundRows : Bool) : Stmt → DB → Except String Result × DB
  | .probe, db =>
    match db.table with
    | none => (.error Table.missing, db)
    | some _ => (.ok (Result.done 0 0), db)
  | .createTable, db =>
    match db.table with
    | none => (.ok (Result.done 0 0), ⟨some ⟨[], 1⟩⟩)
    | some _ => (.error "Error 1050: Table Product already exists", db)
  | .insert a1 a2 a3 a4 a5 a6 a7, db =>
    match db.table with
    | none => (.error Table.missing, db)
    | some t =>
      if t.rows.any (fun r => r.ID = t.nextID) then
        (.error "Error 1062: Duplicate entry for key PRIMARY", db)
      else
        (.ok (Result.done t.nextID 1),
         ⟨some ⟨t.rows ++ [{ ID := t.nextID, Name := a1, Price := a2, Creator := a3, Unit := a4,
                             Category := a5, Description := a6, Date := Table.stored a7 }],
                t.nextID + 1⟩⟩)
  | .update a1 a2 a3 a4 a5 a6 a7 a8, db =>
    match db.table with
    | none => (.error Table.missing, db)
    | some t =>
      (.ok (Result.done 0
          (if foundRows then (t.rows.filter (fun r => r.ID = a8)).length
           else (t.rows.filter
              (fun r => r.ID = a8 ∧ Table.updateRow a1 a2 a3 a4 a5 a6 a7 a8 r ≠ r)).length)),
       ⟨some ⟨t.rows.map (Table.updateRow a1 a2 a3 a4 a5 a6 a7 a8), t.nextID⟩⟩)
  | .delete a1, db =>
    match db.table with
    | none => (.error Table.missing, db)
    | some t =>
      (.ok (Result.done 0 (t.rows.filter (fun r => r.ID = a1)).length),
       ⟨some ⟨t.rows.filter (fun r => r.ID ≠ a1), t.nextID⟩⟩)

/-- Run one query on the database. -/
def DB.query : Query → DB → Except String Rows × DB
  | .selectByID a1, db =>
    match db.table with
    | none => (.error Table.missing, db)
    | some t =>
      (.ok ⟨(t.rows.filter (fun r => r.ID = a1)).map (fun r => .ok (Table.select r)), none⟩, db)
  | .selectAll, db =>
    match db.table with
    | none => (.error Table.missing, db)
    | some t => (.ok ⟨t.rows.map (fun r => .ok (Table.select r)), none⟩, db)

/-- The driver of a database that holds the table `Product` in memory: connections are
always granted and every statement acts on the table as its SQL text says. -/
def tableDriver (foundRows : Bool) : Driver DB where
  conn := fun db => (.ok (), db)
  exec := DB.exec foundRows
  query := DB.query
  close := fun db => db

/-- The constraint `PRIMARY KEY (ID)` of the schema: no two rows share an `ID`. -/
def Table.Unique (t : Table) : Prop :=
  (t.rows.map (fun r => r.ID)).Nodup

instance (t : Table) : Decidable t.Unique := by
  unfold Table.Unique
  infer_instance

/-- A driver that answers every call from a fixed script, whatever came before, in the
way the `sqlmock` stubs of the tests do. -/
def stubDriver (c : Except String Unit) (e : Stmt → Except String Result)
    (q : Query → Except String Rows) : Driver Unit where
  conn := fun u => (c, u)
  exec := fun s u => (e s, u)
  query := fun s u => (q s, u)
  close := fun u => u

/-- A world in which no call has been made yet. -/
def World.start {σ : Type} (db : σ) : World σ := ⟨db, []⟩

/-! ## The service as one function -/

/-- A request to one of the five methods of `ProductServiceServer`. -/
inductive Request where
  | create (req : CreateRequest)
  | read (req : ReadRequest)
  | update (req : UpdateRequest)
  | delete (req : DeleteRequest)
  | readAll (req : ReadAllRequest)
  deriving DecidableEq, Repr

/-- The api string of a request. -/
def Request.Api : Request → String
  | .create req => req.Api
  | .read req => req.Api
  | .update req => req.Api
  | .delete req => req.Api
  | .readAll req => req.Api

/-- An outcome without its response: success, the error status, or the panic. -/
def Outcome.void {α : Type} : Outcome α → Outcome Unit
  | .ok _ => .ok ()
  | .err st => .err st
  | .panic => .panic

/-- The five handlers as one function of the request; the response is dropped. -/
def serve {σ : Type} (d : Driver σ) : Request → World σ → Outcome Unit × World σ
  | .create req, w => ((Create d req w).1.void, (Create d req w).2)
  | .read req, w => ((Read d req w).1.void, (Read d req w).2)
  | .update req, w => ((Update d req w).1.void, (Update d req w).2)
  | .delete req, w => ((Delete d req w).1.void, (Delete d req w).2)
  | .readAll req, w => ((ReadAll d req w).1.void, (ReadAll d req w).2)

/-! ## The causes of the status codes -/

/-- Whether the Date of a scanned row lies outside the range of wire timestamps. -/
def Cols.dateOutOfRange (c : Cols) : Bool :=
  decide (c.c8.sec < -62135596800 ∨ 253402300800 ≤ c.c8.sec)

/-- Whether a result set holds a failure: a row that does not scan, a row whose Date does
not convert, or an error of the iteration. -/
def Rows.failed (rows : Rows) : Bool :=
  rows.rows.any (fun r =>
    match r with
    | .error _ => true
    | .ok c => c.dateOutOfRange) || rows.err.isSome

/-- Whether a call reports a storage-layer failure: a refused connection, a failed
statement or query (table creation included), an insert id or an affected-row count that
cannot be retrieved, a result set with a failure, or several rows for the one id of Read.
A failure of the existence probe of Create is not one: it only triggers the creation of the
table. -/
def Event.failed : Event → Bool
  | .conn (.error _) => true
  | .conn (.ok _) => false
  | .exec .probe _ => false
  | .exec .createTable (.error _) => true
  | .exec .createTable (.ok _) => false
  | .exec (.insert _ _ _ _ _ _ _) (.error _) => true
  | .exec (.insert _ _ _ _ _ _ _) (.ok res) =>
    match res.LastInsertId with
    | .error _ => true
    | .ok _ => false
  | .exec (.update _ _ _ _ _ _ _ _) (.error _) => true
  | .exec (.update _ _ _ _ _ _ _ _) (.ok res) =>
    match res.RowsAffected with
    | .error _ => true
    | .ok _ => false
  | .exec (.delete _) (.error _) => true
  | .exec (.delete _) (.ok res) =>
    match res.RowsAffected with
    | .error _ => true
    | .ok _ => false
  | .query _ (.error _) => true
  | .query (.selectByID _) (.ok rows) => rows.failed || decide (2 ≤ rows.rows.length)
  | .query .selectAll (.ok rows) => rows.failed
  | .rowsClose => false
  | .close => false

/-- The one result set of Read after which `rows.Err()` is not called: exactly one row,
which scans and whose Date converts, and an error of the iteration behind it. -/
def Event.unchecked : Event → Bool
  | .query (.selectByID _) (.ok rows) =>
    match rows.rows with
    | [.ok c] => !c.dateOutOfRange && rows.err.isSome
    | _ => false
  | _ => false

/-- Whether a call reports that no row matched: the query of Read ends without a row and
without error, or UPDATE or DELETE reports the affected-row count 0. -/
def Event.noRows : Event → Bool
  | .query (.selectByID _) (.ok rows) => rows.rows.isEmpty && rows.err.isNone
  | .exec (.update _ _ _ _ _ _ _ _) (.ok res) => decide (res.RowsAffected = .ok 0)
  | .exec (.delete _) (.ok res) => decide (res.RowsAffected = .ok 0)
  | _ => false

/-- A connection pool in front of a database: the connections it has handed out and the
connections that were given back to it. -/
structure Pool (σ : Type) where
  db : σ
  leased : Nat
  released : Nat
  deriving DecidableEq, Repr

/-- The driver `d` behind a pool: `db.Conn` counts a lease when it hands out a connection,
`c.Close` counts a release. -/
def pooled {σ : Type} (d : Driver σ) : Driver (Pool σ) where
  conn := fun p =>
    match d.conn p.db with
    | (.ok u, s) => (.ok u, ⟨s, p.leased + 1, p.released⟩)
    | (.error e, s) => (.error e, ⟨s, p.leased, p.released⟩)
  exec := fun st p => ((d.exec st p.db).1, ⟨(d.exec st p.db).2, p.leased, p.released⟩)
  query := fun q p => ((d.query q p.db).1, ⟨(d.query q p.db).2, p.leased, p.released⟩)
  close := fun p => ⟨d.close p.db, p.leased, p.released + 1⟩

/-! ## The stores the service can reach -/

/-- The databases reached by Create, Update and Delete requests from a database without
the table `Product` (`missing`, the state before the first Create) or with the empty table
(`empty`). -/
inductive Reachable (foundRows : Bool) : DB → Prop where
  | missing : Reachable foundRows ⟨none⟩
  | empty : Reachable foundRows ⟨some ⟨[], 1⟩⟩
  | create (w : World DB) (req : CreateRequest) :
      Reachable foundRows w.db → Reachable foundRows (Create (tableDriver foundRows) req w).2.db
  | update (w : World DB) (req : UpdateRequest) :
      Reachable foundRows w.db → Reachable foundRows (Update (tableDriver foundRows) req w).2.db
  | delete (w : World DB) (req : DeleteRequest) :
      Reachable foundRows w.db → Reachable foundRows (Delete (tableDriver foundRows) req w).2.db

/-- What the service keeps true of the table: the primary key, every `ID` below the
AUTO_INCREMENT counter, and every stored Date in the range of wire timestamps. -/
def Table.Sound (t : Table) : Prop :=
  t.Unique ∧ (∀ r ∈ t.rows, r.ID < t.nextID) ∧
    ∀ r ∈ t.rows, -62135596800 ≤ r.Date.sec ∧ r.Date.sec < 253402300800

/-! ## The version gate -/

theorem String.eq_empty_of_length {s : String} (h : s.length = 0) : s = "" := by
  cases s with
  | mk l =>
    have hl : l = [] := List.length_eq_zero.mp h
    subst hl
    rfl

theorem checkAPI_eq_none (api : String) : checkAPI api = none ↔ (api = "" ∨ api = "v1") := by
  unfold checkAPI apiVersion
  constructor
  · intro h
    by_cases h0 : api.length > 0
    · simp [h0] at h
      exact Or.inr h.symm
    · exact Or.inl (String.eq_empty_of_length (by omega))
  · rintro (h | h) <;> subst h <;> decide

theorem checkAPI_code {api : String} {st : Status} (h : checkAPI api = some st) :
    st.code = .Unimplemented := by
  unfold checkAPI at h
  split at h
  · split at h
    · simp at h; rw [← h]
    · simp at h
  · simp at h

theorem create_reply_code (r : Except String Result) :
    (Create.reply r).code ≠ some .Unimplemented := by
  unfold Create.reply
  repeat' split
  all_goals simp [Outcome.code]

theorem update_reply_code (id : Int) (r : Except String Result) :
    (Update.reply id r).code ≠ some .Unimplemented := by
  unfold Update.reply
  repeat' split
  all_goals simp [Outcome.code]

theorem delete_reply_code (id : Int) (r : Except String Result) :
    (Delete.reply id r).code ≠ some .Unimplemented := by
  unfold Delete.reply
  repeat' split
  all_goals simp [Outcome.code]

theorem read_rows_code (req : ReadRequest) (rows : Rows) :
    (Read.rows req rows).code ≠ some .Unimplemented := by
  unfold Read.rows
  repeat' split
  all_goals simp [Outcome.code]

theorem ReadAll.loop_code (rows : List (Except String Cols)) (list : List ProductProto)
    (st : Status) (h : ReadAll.loop rows list = .error st) : st.code = .Unknown := by
  induction rows generalizing list with
  | nil => simp [ReadAll.loop] at h
  | cons r rest ih =>
    unfold ReadAll.loop at h
    split at h
    · simp at h; rw [← h]
    · split at h
      · simp at h; rw [← h]
      · exact ih _ h

theorem readAll_rows_code (rows : Rows) :
    (ReadAll.rows rows).code ≠ some .Unimplemented := by
  unfold ReadAll.rows
  split
  · rename_i st h
    simp [Outcome.code, ReadAll.loop_code _ _ _ h]
  · split <;> simp [Outcome.code]

theorem create_accepted_code {σ : Type} (d : Driver σ) (req : CreateRequest) (w : World σ)
    (h : checkAPI req.Api = none) : (Create d req w).1.code ≠ some .Unimplemented := by
  rcases hc : d.conn w.db with ⟨(e | u), s1⟩
  · simp [Create, h, connect, hc, Outcome.code]
  · rcases hp : req.Product with _ | p
    · simp [Create, h, connect, hc, Create.body, hp, Outcome.code]
    · rcases ht : ptypes.Timestamp p.Date with ⟨date, _ | e⟩
      · rcases hpr : d.exec .probe s1 with ⟨(e | r0), s2⟩
        · rcases hct : d.exec .createTable s2 with ⟨(e | r1), s3⟩
          · simp [Create, h, connect, hc, Create.body, hp, ht, ExecContext, hpr, createTable,
              hct, Outcome.code]
          · simp only [Create, h, connect, hc, Create.body, hp, ht, ExecContext, hpr,
              createTable, hct, Create.insert]
            exact create_reply_code _
        · simp only [Create, h, connect, hc, Create.body, hp, ht, ExecContext, hpr,
            Create.insert]
          exact create_reply_code _
      · simp [Create, h, connect, hc, Create.body, hp, ht, Outcome.code]

theorem read_accepted_code {σ : Type} (d : Driver σ) (req : ReadRequest) (w : World σ)
    (h : checkAPI req.Api = none) : (Read d req w).1.code ≠ some .Unimplemented := by
  rcases hc : d.conn w.db with ⟨(e | u), s1⟩
  · simp [Read, h, connect, hc, Outcome.code]
  · rcases hq : d.query (.selectByID req.Id) s1 with ⟨(e | rows), s2⟩
    · simp [Read, h, connect, hc, Read.body, QueryContext, hq, Outcome.code]
    · simp only [Read, h, connect, hc, Read.body, QueryContext, hq]
      exact read_rows_code _ _

theorem update_accepted_code {σ : Type} (d : Driver σ) (req : UpdateRequest) (w : World σ)
    (h : checkAPI req.Api = none) : (Update d req w).1.code ≠ some .Unimplemented := by
  rcases hc : d.conn w.db with ⟨(e | u), s1⟩
  · simp [Update, h, connect, hc, Outcome.code]
  · rcases hp : req.Product with _ | p
    · simp [Update, h, connect, hc, Update.body, hp, Outcome.code]
    · rcases ht : ptypes.Timestamp p.Date with ⟨date, _ | e⟩
      · simp only [Update, h, connect, hc, Update.body, hp, ht]
        exact update_reply_code _ _
      · simp [Update, h, connect, hc, Update.body, hp, ht, Outcome.code]

theorem delete_accepted_code {σ : Type} (d : Driver σ) (req : DeleteRequest) (w : World σ)
    (h : checkAPI req.Api = none) : (Delete d req w).1.code ≠ some .Unimplemented := by
  rcases hc : d.conn w.db with ⟨(e | u), s1⟩
  · simp [Delete, h, connect, hc, Outcome.code]
  · simp only [Delete, h, connect, hc, Delete.body]
    exact delete_reply_code _ _

theorem readAll_accepted_code {σ : Type} (d : Driver σ) (req : ReadAllRequest) (w : World σ)
    (h : checkAPI req.Api = none) : (ReadAll d req w).1.code ≠ some .Unimplemented := by
  rcases hc : d.conn w.db with ⟨(e | u), s1⟩
  · simp [ReadAll, h, connect, hc, Outcome.code]
  · rcases hq : d.query .selectAll s1 with ⟨(e | rows), s2⟩
    · simp [ReadAll, h, connect, hc, ReadAll.body, QueryContext, hq, Outcome.code]
    · simp only [ReadAll, h, connect, hc, ReadAll.body, QueryContext, hq]
      exact readAll_rows_code _

theorem gate_iff {α : Type} (api : String) (o : Outcome α)
    (hacc : checkAPI api = none → o.code ≠ some .Unimplemented)
    (hrej : ∀ st, checkAPI api = some st → o = .err st) :
    o.code = some .Unimplemented ↔ (api ≠ "" ∧ api ≠ "v1") := by
  rcases h : checkAPI api with _ | st
  · have h1 := (checkAPI_eq_none api).mp h
    constructor
    · intro hc; exact absurd hc (hacc h)
    · rintro ⟨h2, h3⟩
      rcases h1 with h1 | h1
      · exact absurd h1 h2
      · exact absurd h1 h3
  · constructor
    · intro _
      constructor
      · intro h0
        rw [(checkAPI_eq_none api).mpr (Or.inl h0)] at h
        cases h
      · intro h0
        rw [(checkAPI_eq_none api).mpr (Or.inr h0)] at h
        cases h
    · intro _
      rw [hrej st h]
      simp [Outcome.code, checkAPI_code h]

theorem checkAPI_rejects {api : String} (h : api ≠ "" ∧ api ≠ "v1") :
    ∃ msg, checkAPI api = some ⟨.Unimplemented, msg⟩ := by
  rcases hc : checkAPI api with _ | st
  · rcases (checkAPI_eq_none api).mp hc with h1 | h1
    · exact absurd h1 h.1
    · exact absurd h1 h.2
  · refine ⟨st.msg, ?_⟩
    have := checkAPI_code hc
    cases st
    simp_all

/-- C1: each of the five operations fails with Unimplemented exactly when the api string is
non-empty and different from "v1"; the empty string is served exactly like "v1"; and a
rejected request returns a status that depends on the api string alone and leaves the world
as it was: no connection leased, no statement executed. -/
theorem version_gate {σ : Type} (d : Driver σ) (w : World σ) (api : String) :
    ((∀ p, (Create d ⟨api, p⟩ w).1.code = some .Unimplemented ↔ (api ≠ "" ∧ api ≠ "v1")) ∧
     (∀ id, (Read d ⟨api, id⟩ w).1.code = some .Unimplemented ↔ (api ≠ "" ∧ api ≠ "v1")) ∧
     (∀ p, (Update d ⟨api, p⟩ w).1.code = some .Unimplemented ↔ (api ≠ "" ∧ api ≠ "v1")) ∧
     (∀ id, (Delete d ⟨api, id⟩ w).1.code = some .Unimplemented ↔ (api ≠ "" ∧ api ≠ "v1")) ∧
     ((ReadAll d ⟨api⟩ w).1.code = some .Unimplemented ↔ (api ≠ "" ∧ api ≠ "v1"))) ∧
    ((∀ p, Create d ⟨"", p⟩ w = Create d ⟨"v1", p⟩ w) ∧
     (∀ id, Read d ⟨"", id⟩ w = Read d ⟨"v1", id⟩ w) ∧
     (∀ p, Update d ⟨"", p⟩ w = Update d ⟨"v1", p⟩ w) ∧
     (∀ id, Delete d ⟨"", id⟩ w = Delete d ⟨"v1", id⟩ w) ∧
     ReadAll d ⟨""⟩ w = ReadAll d ⟨"v1"⟩ w) ∧
    (api ≠ "" ∧ api ≠ "v1" → ∃ msg,
      (∀ p, Create d ⟨api, p⟩ w = (.err ⟨.Unimplemented, msg⟩, w)) ∧
      (∀ id, Read d ⟨api, id⟩ w = (.err ⟨.Unimplemented, msg⟩, w)) ∧
      (∀ p, Update d ⟨api, p⟩ w = (.err ⟨.Unimplemented, msg⟩, w)) ∧
      (∀ id, Delete d ⟨api, id⟩ w = (.err ⟨.Unimplemented, msg⟩, w)) ∧
      ReadAll d ⟨api⟩ w = (.err ⟨.Unimplemented, msg⟩, w)) := by
  have e0 : checkAPI "" = none := by decide
  have e1 : checkAPI "v1" = none := by decide
  refine ⟨⟨?_, ?_, ?_, ?_, ?_⟩, ⟨?_, ?_, ?_, ?_, ?_⟩, ?_⟩
  · intro p
    exact gate_iff api _ (create_accepted_code d ⟨api, p⟩ w)
      (fun st h => by simp [Create, h])
  · intro id
    exact gate_iff api _ (read_accepted_code d ⟨api, id⟩ w)
      (fun st h => by simp [Read, h])
  · intro p
    exact gate_iff api _ (update_accepted_code d ⟨api, p⟩ w)
      (fun st h => by simp [Update, h])
  · intro id
    exact gate_iff api _ (delete_accepted_code d ⟨api, id⟩ w)
      (fun st h => by simp [Delete, h])
  · exact gate_iff api _ (readAll_accepted_code d ⟨api⟩ w)
      (fun st h => by simp [ReadAll, h])
  · intro p; simp only [Create, e0, e1, Create.body]
  · intro id; simp only [Read, e0, e1, Read.body, Read.rows]
  · intro p; simp only [Update, e0, e1, Update.body]
  · intro id; simp only [Delete, e0, e1, Delete.body]
  · simp only [ReadAll, e0, e1]
  · intro h
    obtain ⟨msg, hm⟩ := checkAPI_rejects h
    exact ⟨msg, fun p => by simp [Create, hm], fun id => by simp [Read, hm],
      fun p => by simp [Update, hm], fun id => by simp [Delete, hm], by simp [ReadAll, hm]⟩

/-! ## Malformed dates -/

theorem ptypes.Timestamp_malformed (ts : ProductService.Timestamp)
    (hbad : ts.Nanos < 0 ∨ 1000000000 ≤ ts.Nanos ∨ ts.Seconds < -62135596800 ∨
      253402300800 ≤ ts.Seconds) :
    ∃ e, (ptypes.Timestamp (some ts)).2 = some e := by
  simp only [ptypes.Timestamp, ptypes.validateTimestamp, ptypes.minValidSeconds,
    ptypes.maxValidSeconds]
  split
  · exact ⟨_, rfl⟩
  · split
    · exact ⟨_, rfl⟩
    · split
      · exact ⟨_, rfl⟩
      · exfalso; omega

/-- C2, counterexample: a Create request with api "v1" and the malformed date Seconds=1,
Nanos=-1 fails with Unknown, not InvalidArgument, when the pool refuses the connection. -/
theorem malformed_date_connection_refused :
    (Create (stubDriver (.error "connection refused") (fun _ => .error "") (fun _ => .error ""))
        ⟨"v1", some ⟨0, "Name", "", "", "", "", "Description", some ⟨1, -1⟩⟩⟩
        (World.start ())).1.code = some .Unknown ∧
    (Create (stubDriver (.error "connection refused") (fun _ => .error "") (fun _ => .error ""))
        ⟨"v1", some ⟨0, "Name", "", "", "", "", "Description", some ⟨1, -1⟩⟩⟩
        (World.start ())).1.code ≠ some .InvalidArgument := by
  decide

/-- C2, amended: for a Create or Update request with an accepted api version and a malformed
date, once the connection is leased the operation fails with InvalidArgument and the only
calls made are the lease and the release (no statement at all is executed); when the lease
fails the operation fails with Unknown, again without a statement; and on the table driver
the stored table is unchanged. -/
theorem malformed_date_writes_nothing {σ : Type} (d : Driver σ) (w : World σ) (api : String)
    (p : ProductProto) (ts : Timestamp) (hapi : api = "" ∨ api = "v1") (hd : p.Date = some ts)
    (hbad : ts.Nanos < 0 ∨ 1000000000 ≤ ts.Nanos ∨ ts.Seconds < -62135596800 ∨
      253402300800 ≤ ts.Seconds) :
    (∀ u, (d.conn w.db).1 = .ok u →
      (Create d ⟨api, some p⟩ w).1.code = some .InvalidArgument ∧
      (Create d ⟨api, some p⟩ w).2 =
        ⟨d.close (d.conn w.db).2, w.trace ++ [.conn (.ok u), .close]⟩ ∧
      (Update d ⟨api, some p⟩ w).1.code = some .InvalidArgument ∧
      (Update d ⟨api, some p⟩ w).2 =
        ⟨d.close (d.conn w.db).2, w.trace ++ [.conn (.ok u), .close]⟩) ∧
    (∀ e, (d.conn w.db).1 = .error e →
      (Create d ⟨api, some p⟩ w).1.code = some .Unknown ∧
      (Create d ⟨api, some p⟩ w).2 = ⟨(d.conn w.db).2, w.trace ++ [.conn (.error e)]⟩ ∧
      (Update d ⟨api, some p⟩ w).1.code = some .Unknown ∧
      (Update d ⟨api, some p⟩ w).2 = ⟨(d.conn w.db).2, w.trace ++ [.conn (.error e)]⟩) ∧
    (∀ (foundRows : Bool) (w0 : World DB),
      (Create (tableDriver foundRows) ⟨api, some p⟩ w0).1.code = some .InvalidArgument ∧
      (Create (tableDriver foundRows) ⟨api, some p⟩ w0).2.db = w0.db ∧
      (Update (tableDriver foundRows) ⟨api, some p⟩ w0).1.code = some .InvalidArgument ∧
      (Update (tableDriver foundRows) ⟨api, some p⟩ w0).2.db = w0.db) := by
  have ha : checkAPI api = none := (checkAPI_eq_none api).mpr hapi
  obtain ⟨e, he⟩ := ptypes.Timestamp_malformed ts hbad
  rcases ht : ptypes.Timestamp (some ts) with ⟨date, e2⟩
  rw [ht] at he
  simp only at he
  subst he
  refine ⟨?_, ?_, ?_⟩
  · intro u hu
    simp [Create, Update, ha, connect, hu, Create.body, Update.body, hd, ht, Close,
      Outcome.code]
  · intro e1 hu
    simp [Create, Update, ha, connect, hu, Outcome.code]
  · intro f w0
    simp [Create, Update, ha, connect, Create.body, Update.body, hd, ht, Close,
      Outcome.code, tableDriver]

/-- C2, witness of the amended statement at the request of the test "Invalid Date field
format" (api "v1", Seconds=1, Nanos=-1) on an empty database. -/
theorem malformed_date_writes_nothing_witness :
    (Create (tableDriver false) ⟨"v1", some ⟨0, "Name", "", "", "", "", "Description",
        some ⟨1, -1⟩⟩⟩ (World.start ⟨none⟩)).1.code = some .InvalidArgument ∧
    (Create (tableDriver false) ⟨"v1", some ⟨0, "Name", "", "", "", "", "Description",
        some ⟨1, -1⟩⟩⟩ (World.start ⟨none⟩)).2.db = ⟨none⟩ :=
  have h := (malformed_date_writes_nothing (tableDriver false) (World.start ⟨none⟩) "v1"
    ⟨0, "Name", "", "", "", "", "Description", some ⟨1, -1⟩⟩ ⟨1, -1⟩ (Or.inr rfl) rfl
    (Or.inl (by decide))).2.2 false (World.start ⟨none⟩)
  ⟨h.1, h.2.1⟩

/-! ## Create and the INSERT -/

theorem Create.reply_of_insert {σ : Type} (d : Driver σ) (req : CreateRequest) (s : σ)
    (a1 a2 a3 a4 a5 a6 : String) (a7 : Time) (r : Except String Result)
    (h : Event.exec (.insert a1 a2 a3 a4 a5 a6 a7) r ∈ (Create d req (World.start s)).2.trace) :
    (Create d req (World.start s)).1 = Create.reply r := by
  revert h
  rcases hapi : checkAPI req.Api with _ | st
  · rcases hc : d.conn s with ⟨(e | u), s1⟩
    · simp [Create, hapi, connect, World.start, hc]
    · rcases hp : req.Product with _ | p
      · simp [Create, hapi, connect, World.start, hc, Create.body, hp, Close]
      · rcases ht : ptypes.Timestamp p.Date with ⟨date, _ | e⟩
        · rcases hpr : d.exec .probe s1 with ⟨(e | r0), s2⟩
          · rcases hct : d.exec .createTable s2 with ⟨(e | r1), s3⟩
            · simp [Create, hapi, connect, World.start, hc, Create.body, hp, ht, Close,
                ExecContext, hpr, createTable, hct]
            · simp only [Create, hapi, connect, World.start, hc, Create.body, hp, ht, Close,
                ExecContext, hpr, createTable, hct, Create.insert, List.nil_append,
                List.cons_append, List.mem_cons, List.mem_append, List.mem_singleton,
                List.not_mem_nil, Event.exec.injEq, reduceCtorEq, false_and, and_false,
                or_false, false_or]
              rintro ⟨-, rfl⟩
              rfl
          · simp only [Create, hapi, connect, World.start, hc, Create.body, hp, ht, Close,
              ExecContext, hpr, Create.insert, List.nil_append,
              List.cons_append, List.mem_cons, List.mem_append, List.mem_singleton,
              List.not_mem_nil, Event.exec.injEq, reduceCtorEq, false_and, and_false,
              or_false, false_or]
            rintro ⟨-, rfl⟩
            rfl
        · simp [Create, hapi, connect, World.start, hc, Create.body, hp, ht, Close]
  · simp [Create, hapi, World.start]

/-- C10: when Create executes its INSERT and the call returns `r`: if the INSERT succeeded
and the driver reports last-insert id `N`, Create succeeds with api "v1" and id `N`; if the
INSERT failed, or the id cannot be retrieved, Create fails with Unknown (and so returns no
response). -/
theorem create_outcome_of_insert {σ : Type} (d : Driver σ) (req : CreateRequest) (s : σ)
    (a1 a2 a3 a4 a5 a6 : String) (a7 : Time) (r : Except String Result)
    (h : Event.exec (.insert a1 a2 a3 a4 a5 a6 a7) r ∈ (Create d req (World.start s)).2.trace) :
    (∀ res N, r = .ok res → res.LastInsertId = .ok N →
      (Create d req (World.start s)).1 = .ok ⟨"v1", N⟩) ∧
    (∀ e, r = .error e →
      (Create d req (World.start s)).1 =
        .err ⟨.Unknown, "failed to insert into Product-> " ++ e⟩) ∧
    (∀ res e, r = .ok res → res.LastInsertId = .error e →
      (Create d req (World.start s)).1 =
        .err ⟨.Unknown, "failed to retrieve id for created Product-> " ++ e⟩) := by
  rw [Create.reply_of_insert d req s a1 a2 a3 a4 a5 a6 a7 r h]
  refine ⟨?_, ?_, ?_⟩
  · rintro res N rfl hN
    simp [Create.reply, hN, apiVersion]
  · rintro e rfl
    simp [Create.reply]
  · rintro res e rfl hN
    simp [Create.reply, hN]

/-- C10, witness: the stub of the test "OK" (INSERT returns insert id 1) gives id 1. -/
theorem create_outcome_of_insert_witness :
    Event.exec (.insert "Name" "" "" "" "" "Description" ⟨5, 0⟩) (.ok (Result.done 1 1)) ∈
      (Create (stubDriver (.ok ()) (fun _ => .ok (Result.done 1 1)) (fun _ => .error ""))
        ⟨"v1", some ⟨0, "Name", "", "", "", "", "Description", some ⟨5, 0⟩⟩⟩
        (World.start ())).2.trace ∧
    (Create (stubDriver (.ok ()) (fun _ => .ok (Result.done 1 1)) (fun _ => .error ""))
        ⟨"v1", some ⟨0, "Name", "", "", "", "", "Description", some ⟨5, 0⟩⟩⟩
        (World.start ())).1 = .ok ⟨"v1", 1⟩ :=
  ⟨by decide,
   (create_outcome_of_insert
      (stubDriver (.ok ()) (fun _ => .ok (Result.done 1 1)) (fun _ => .error ""))
      ⟨"v1", some ⟨0, "Name", "", "", "", "", "Description", some ⟨5, 0⟩⟩⟩ ()
      "Name" "" "" "" "" "Description" ⟨5, 0⟩ (.ok (Result.done 1 1)) (by decide)).1
      (Result.done 1 1) 1 rfl rfl⟩

/-! ## Update, Delete and the affected-row count -/

theorem update_reply_of_exec {σ : Type} (d : Driver σ) (req : UpdateRequest) (s : σ)
    (st : Stmt) (r : Except String Result)
    (h : Event.exec st r ∈ (Update d req (World.start s)).2.trace) :
    ∃ p, req.Product = some p ∧ (Update d req (World.start s)).1 = Update.reply p.Id r := by
  revert h
  rcases hapi : checkAPI req.Api with _ | e0
  · rcases hc : d.conn s with ⟨(e | u), s1⟩
    · simp [Update, hapi, connect, World.start, hc]
    · rcases hp : req.Product with _ | p
      · simp [Update, hapi, connect, World.start, hc, Update.body, hp, Close]
      · rcases ht : ptypes.Timestamp p.Date with ⟨date, _ | e⟩
        · simp only [Update, hapi, connect, World.start, hc, Update.body, hp, ht, Close,
            ExecContext, List.nil_append, List.cons_append, List.mem_cons, List.mem_append,
            List.mem_singleton, List.not_mem_nil, Event.exec.injEq, reduceCtorEq, false_and,
            and_false, or_false, false_or]
          rintro ⟨-, rfl⟩
          exact ⟨p, rfl, rfl⟩
        · simp [Update, hapi, connect, World.start, hc, Update.body, hp, ht, Close]
  · simp [Update, hapi, World.start]

theorem delete_reply_of_exec {σ : Type} (d : Driver σ) (req : DeleteRequest) (s : σ)
    (st : Stmt) (r : Except String Result)
    (h : Event.exec st r ∈ (Delete d req (World.start s)).2.trace) :
    (Delete d req (World.start s)).1 = Delete.reply req.Id r := by
  revert h
  rcases hapi : checkAPI req.Api with _ | e0
  · rcases hc : d.conn s with ⟨(e | u), s1⟩
    · simp [Delete, hapi, connect, World.start, hc]
    · simp only [Delete, hapi, connect, World.start, hc, Delete.body, Close,
        ExecContext, List.nil_append, List.cons_append, List.mem_cons, List.mem_append,
        List.mem_singleton, List.not_mem_nil, Event.exec.injEq, reduceCtorEq, false_and,
        and_false, or_false, false_or]
      rintro ⟨-, rfl⟩
      rfl
  · simp [Delete, hapi, World.start]

theorem update_reply_rows (id : Int) (r : Except String Result) :
    (∀ res n, r = .ok res → res.RowsAffected = .ok n →
      (n = 0 → (Update.reply id r).code = some .NotFound) ∧
      (n ≠ 0 → Update.reply id r = .ok ⟨"v1", n⟩)) ∧
    (∀ e, r = .error e → (Update.reply id r).code = some .Unknown) ∧
    (∀ res e, r = .ok res → res.RowsAffected = .error e →
      (Update.reply id r).code = some .Unknown) := by
  refine ⟨?_, ?_, ?_⟩
  · rintro res n rfl hn
    constructor
    · rintro rfl
      simp [Update.reply, hn, Outcome.code]
    · intro h0
      simp [Update.reply, hn, h0, apiVersion]
  · rintro e rfl
    simp [Update.reply, Outcome.code]
  · rintro res e rfl hn
    simp [Update.reply, hn, Outcome.code]

theorem delete_reply_rows (id : Int) (r : Except String Result) :
    (∀ res n, r = .ok res → res.RowsAffected = .ok n →
      (n = 0 → (Delete.reply id r).code = some .NotFound) ∧
      (n ≠ 0 → Delete.reply id r = .ok ⟨"v1", n⟩)) ∧
    (∀ e, r = .error e → (Delete.reply id r).code = some .Unknown) ∧
    (∀ res e, r = .ok res → res.RowsAffected = .error e →
      (Delete.reply id r).code = some .Unknown) := by
  refine ⟨?_, ?_, ?_⟩
  · rintro res n rfl hn
    constructor
    · rintro rfl
      simp [Delete.reply, hn, Outcome.code]
    · intro h0
      simp [Delete.reply, hn, h0, apiVersion]
  · rintro e rfl
    simp [Delete.reply, Outcome.code]
  · rintro res e rfl hn
    simp [Delete.reply, hn, Outcome.code]

/-! ## Timestamps that convert -/

theorem ptypes.validate_none (ts : ProductService.Timestamp) :
    ptypes.validateTimestamp (some ts) = none ↔
      (-62135596800 ≤ ts.Seconds ∧ ts.Seconds < 253402300800 ∧ 0 ≤ ts.Nanos ∧
        ts.Nanos < 1000000000) := by
  simp only [ptypes.validateTimestamp, ptypes.minValidSeconds, ptypes.maxValidSeconds]
  constructor
  · intro h
    split at h
    · cases h
    · split at h
      · cases h
      · split at h
        · cases h
        · omega
  · intro h
    rw [if_neg (by omega), if_neg (by omega), if_neg (by omega)]

theorem ptypes.Timestamp_valid (ts : ProductService.Timestamp)
    (h : ptypes.validateTimestamp (some ts) = none) :
    ptypes.Timestamp (some ts) = (time.Unix ts.Seconds ts.Nanos, none) := by
  simp [ptypes.Timestamp, h]

theorem Table.stored_Unix (ts : ProductService.Timestamp)
    (h : ptypes.validateTimestamp (some ts) = none) :
    Table.stored (time.Unix ts.Seconds ts.Nanos) = ⟨ts.Seconds, 0⟩ := by
  have hv := (ptypes.validate_none ts).mp h
  simp only [Table.stored, time.Unix, Time.mk.injEq, and_true]
  omega

/-! ## Rows of the table by ID -/

theorem Table.updateRow_ID (a1 a2 a3 a4 a5 a6 : String) (a7 : Time) (a8 : Int) (r : Row) :
    (Table.updateRow a1 a2 a3 a4 a5 a6 a7 a8 r).ID = r.ID := by
  unfold Table.updateRow
  split <;> rfl

theorem Table.updateRow_other (a1 a2 a3 a4 a5 a6 : String) (a7 : Time) (a8 : Int) (r : Row)
    (h : r.ID ≠ a8) : Table.updateRow a1 a2 a3 a4 a5 a6 a7 a8 r = r := by
  unfold Table.updateRow
  rw [if_neg h]

theorem Table.filter_unique (rows : List Row) (r0 : Row)
    (hu : (rows.map (fun r => r.ID)).Nodup) (hm : r0 ∈ rows) :
    rows.filter (fun r => r.ID = r0.ID) = [r0] := by
  induction rows with
  | nil => cases hm
  | cons a l ih =>
    rw [List.map_cons, List.nodup_cons] at hu
    rcases List.mem_cons.mp hm with h | h
    · subst h
      have hnone : l.filter (fun r => decide (r.ID = r0.ID)) = [] := by
        rw [List.filter_eq_nil_iff]
        intro b hb hbe
        exact hu.1 (List.mem_map.mpr ⟨b, hb, by simpa using hbe⟩)
      simp [List.filter_cons, hnone]
    · have hne : a.ID ≠ r0.ID := by
        intro he
        exact hu.1 (List.mem_map.mpr ⟨r0, h, he.symm⟩)
      simp [List.filter_cons, hne, ih hu.2 h]

theorem Table.filter_map_update (a1 a2 a3 a4 a5 a6 : String) (a7 : Time) (a8 id : Int)
    (rows : List Row) :
    (rows.map (Table.updateRow a1 a2 a3 a4 a5 a6 a7 a8)).filter (fun r => r.ID = id) =
      (rows.filter (fun r => r.ID = id)).map (Table.updateRow a1 a2 a3 a4 a5 a6 a7 a8) := by
  induction rows with
  | nil => rfl
  | cons a l ih =>
    by_cases h : a.ID = id
    · simp [List.filter_cons, Table.updateRow_ID, h, ih]
    · simp [List.filter_cons, Table.updateRow_ID, h, ih]

theorem Table.map_update_other (a1 a2 a3 a4 a5 a6 : String) (a7 : Time) (a8 : Int)
    (rows : List Row) (h : ∀ r ∈ rows, r.ID ≠ a8) :
    rows.map (Table.updateRow a1 a2 a3 a4 a5 a6 a7 a8) = rows := by
  induction rows with
  | nil => rfl
  | cons a l ih =>
    rw [List.map_cons, Table.updateRow_other _ _ _ _ _ _ _ _ _ (h a (List.mem_cons_self _ _)),
      ih (fun r hr => h r (List.mem_cons_of_mem _ hr))]

/-! ## The handlers on the table driver -/

theorem read_on_table (f : Bool) (api : String) (id : Int) (w : World DB) (t : Table)
    (ha : checkAPI api = none) (hw : w.db = ⟨some t⟩) :
    (Read (tableDriver f) ⟨api, id⟩ w).1 =
        Read.rows ⟨api, id⟩
          ⟨(t.rows.filter (fun r => r.ID = id)).map (fun r => .ok (Table.select r)), none⟩ ∧
      (Read (tableDriver f) ⟨api, id⟩ w).2.db = w.db := by
  simp [Read, ha, connect, tableDriver, Read.body, QueryContext, DB.query, hw, Close,
    RowsClose]

theorem readAll_on_table (f : Bool) (api : String) (w : World DB) (t : Table)
    (ha : checkAPI api = none) (hw : w.db = ⟨some t⟩) :
    (ReadAll (tableDriver f) ⟨api⟩ w).1 =
        ReadAll.rows ⟨t.rows.map (fun r => .ok (Table.select r)), none⟩ ∧
      (ReadAll (tableDriver f) ⟨api⟩ w).2.db = w.db := by
  simp [ReadAll, ha, connect, tableDriver, ReadAll.body, QueryContext, DB.query, hw, Close,
    RowsClose]

theorem update_on_table (f : Bool) (api : String) (p : ProductProto) (ts : Timestamp)
    (w : World DB) (t : Table) (ha : checkAPI api = none) (hd : p.Date = some ts)
    (hv : ptypes.validateTimestamp (some ts) = none) (hw : w.db = ⟨some t⟩) :
    (Update (tableDriver f) ⟨api, some p⟩ w).1 =
        Update.reply p.Id (.ok (Result.done 0
          (if f then (t.rows.filter (fun r => r.ID = p.Id)).length
           else (t.rows.filter (fun r => r.ID = p.Id ∧
              Table.updateRow p.Name p.Price p.Unit p.Category p.Creator p.Description
                (time.Unix ts.Seconds ts.Nanos) p.Id r ≠ r)).length))) ∧
      (Update (tableDriver f) ⟨api, some p⟩ w).2.db =
        ⟨some ⟨t.rows.map (Table.updateRow p.Name p.Price p.Unit p.Category p.Creator
          p.Description (time.Unix ts.Seconds ts.Nanos) p.Id), t.nextID⟩⟩ := by
  have ht := ptypes.Timestamp_valid ts hv
  simp [Update, ha, connect, tableDriver, Update.body, hd, ht, ExecContext, DB.exec, hw, Close]

theorem delete_on_table (f : Bool) (api : String) (id : Int) (w : World DB) (t : Table)
    (ha : checkAPI api = none) (hw : w.db = ⟨some t⟩) :
    (Delete (tableDriver f) ⟨api, id⟩ w).1 =
        Delete.reply id (.ok (Result.done 0 (t.rows.filter (fun r => r.ID = id)).length)) ∧
      (Delete (tableDriver f) ⟨api, id⟩ w).2.db =
        ⟨some ⟨t.rows.filter (fun r => r.ID ≠ id), t.nextID⟩⟩ := by
  simp [Delete, ha, connect, tableDriver, Delete.body, ExecContext, DB.exec, hw, Close]

theorem Table.filter_absent (rows : List Row) (id : Int) (h : ∀ r ∈ rows, r.ID ≠ id)
    (q : Row → Bool) : rows.filter (fun r => decide (r.ID = id) && q r) = [] := by
  rw [List.filter_eq_nil_iff]
  intro r hr
  simp [h r hr]

/-- C6: when Update or Delete executes its statement and the call returns `r`: if the driver
reports an affected-row count of 0 the operation fails with NotFound, if it reports a count
`n` other than 0 the operation succeeds with api "v1" and that count, and if the statement
fails or the count cannot be obtained the operation fails with Unknown.  On the table an id
that no row holds gives the count 0, hence NotFound. -/
theorem rows_affected_outcome {σ : Type} (d : Driver σ) (s : σ) (st : Stmt)
    (r : Except String Result) :
    (∀ req : UpdateRequest, Event.exec st r ∈ (Update d req (World.start s)).2.trace →
      (∀ res n, r = .ok res → res.RowsAffected = .ok n →
        (n = 0 → (Update d req (World.start s)).1.code = some .NotFound) ∧
        (n ≠ 0 → (Update d req (World.start s)).1 = .ok ⟨"v1", n⟩)) ∧
      (∀ e, r = .error e → (Update d req (World.start s)).1.code = some .Unknown) ∧
      (∀ res e, r = .ok res → res.RowsAffected = .error e →
        (Update d req (World.start s)).1.code = some .Unknown)) ∧
    (∀ req : DeleteRequest, Event.exec st r ∈ (Delete d req (World.start s)).2.trace →
      (∀ res n, r = .ok res → res.RowsAffected = .ok n →
        (n = 0 → (Delete d req (World.start s)).1.code = some .NotFound) ∧
        (n ≠ 0 → (Delete d req (World.start s)).1 = .ok ⟨"v1", n⟩)) ∧
      (∀ e, r = .error e → (Delete d req (World.start s)).1.code = some .Unknown) ∧
      (∀ res e, r = .ok res → res.RowsAffected = .error e →
        (Delete d req (World.start s)).1.code = some .Unknown)) ∧
    (∀ (foundRows : Bool) (api : String) (id : Int) (t : Table) (w : World DB),
      (api = "" ∨ api = "v1") → w.db = ⟨some t⟩ → (∀ row ∈ t.rows, row.ID ≠ id) →
      (Delete (tableDriver foundRows) ⟨api, id⟩ w).1.code = some .NotFound ∧
      ∀ p, p.Id = id → ptypes.validateTimestamp p.Date = none →
        (Update (tableDriver foundRows) ⟨api, some p⟩ w).1.code = some .NotFound) := by
  refine ⟨?_, ?_, ?_⟩
  · intro req h
    obtain ⟨p, -, hp⟩ := update_reply_of_exec d req s st r h
    rw [hp]
    exact update_reply_rows p.Id r
  · intro req h
    rw [delete_reply_of_exec d req s st r h]
    exact delete_reply_rows req.Id r
  · intro f api id t w hapi hw hno
    have ha : checkAPI api = none := (checkAPI_eq_none api).mpr hapi
    have h0 : t.rows.filter (fun r => decide (r.ID = id)) = [] := by
      have := Table.filter_absent t.rows id hno (fun _ => true)
      simpa using this
    constructor
    · rw [(delete_on_table f api id w t ha hw).1, h0]
      simp [Delete.reply, Result.done, Outcome.code]
    · intro p hid hv
      subst hid
      rcases hd : p.Date with _ | ts
      · rw [hd] at hv
        simp [ptypes.validateTimestamp] at hv
      · rw [hd] at hv
        rw [(update_on_table f api p ts w t ha hd hv hw).1, h0]
        have h1 := Table.filter_absent t.rows p.Id hno (fun r => decide
          (Table.updateRow p.Name p.Price p.Unit p.Category p.Creator p.Description
            (time.Unix ts.Seconds ts.Nanos) p.Id r ≠ r))
        simp only [Bool.decide_and]
        rw [h1]
        simp [Update.reply, Result.done, Outcome.code]

/-! ## Read and the rows of its query -/

theorem ptypes.TimestampProto_ok (t : Time) (h1 : -62135596800 ≤ t.sec)
    (h2 : t.sec < 253402300800) :
    ptypes.TimestampProto t = .ok ⟨t.sec, t.nsec.val⟩ := by
  have hv : ptypes.validateTimestamp (some ⟨t.sec, t.nsec.val⟩) = none :=
    (ptypes.validate_none ⟨t.sec, t.nsec.val⟩).mpr
      ⟨h1, h2, Int.ofNat_nonneg _, by have := t.nsec.isLt; simp only; omega⟩
  simp only [ptypes.TimestampProto, hv]

theorem ptypes.TimestampProto_error (t : Time)
    (h : t.sec < -62135596800 ∨ 253402300800 ≤ t.sec) :
    ∃ e, ptypes.TimestampProto t = .error e := by
  obtain ⟨e, he⟩ := ptypes.Timestamp_malformed ⟨t.sec, t.nsec.val⟩ (Or.inr (Or.inr h))
  simp only [ptypes.Timestamp] at he
  exact ⟨e, by simp only [ptypes.TimestampProto, he]⟩

theorem read_rows_of_query {σ : Type} (d : Driver σ) (req : ReadRequest) (s : σ)
    (q : Query) (r : Except String Rows)
    (h : Event.query q r ∈ (Read d req (World.start s)).2.trace) :
    (∀ rows, r = .ok rows → (Read d req (World.start s)).1 = Read.rows req rows) ∧
    (∀ e, r = .error e → (Read d req (World.start s)).1 =
      .err ⟨.Unknown, "failed to select from Product-> " ++ e⟩) := by
  revert h
  rcases hapi : checkAPI req.Api with _ | e0
  · rcases hc : d.conn s with ⟨(e | u), s1⟩
    · simp [Read, hapi, connect, World.start, hc]
    · rcases hq : d.query (.selectByID req.Id) s1 with ⟨(e | rows), s2⟩
      · simp only [Read, hapi, connect, World.start, hc, Read.body, QueryContext, hq, Close,
          List.nil_append, List.cons_append, List.mem_cons, List.mem_append,
          List.mem_singleton, List.not_mem_nil, Event.query.injEq, reduceCtorEq, false_and,
          and_false, or_false, false_or]
        rintro ⟨-, rfl⟩
        simp
      · simp only [Read, hapi, connect, World.start, hc, Read.body, QueryContext, hq, Close,
          RowsClose, List.nil_append, List.cons_append, List.mem_cons, List.mem_append,
          List.mem_singleton, List.not_mem_nil, Event.query.injEq, reduceCtorEq, false_and,
          and_false, or_false, false_or]
        rintro ⟨-, rfl⟩
        simp
  · simp [Read, hapi, World.start]

/-- C4, counterexample: (1) a single scannable row whose Date is 10000-01-01 makes Read fail
with Unknown instead of returning the product; (2) a single scannable row followed by a
row-iteration error makes Read succeed instead of failing with Unknown. -/
theorem read_one_row_not_decided_by_count :
    (Read (stubDriver (.ok ()) (fun _ => .error "")
        (fun _ => .ok ⟨[.ok ⟨1, "name", "", "", "", "", "description", ⟨253402300800, 0⟩⟩],
          none⟩))
      ⟨"v1", 1⟩ (World.start ())).1.code = some .Unknown ∧
    (Read (stubDriver (.ok ()) (fun _ => .error "")
        (fun _ => .ok ⟨[.ok ⟨1, "name", "", "", "", "", "description", ⟨5, 0⟩⟩],
          some "driver: bad connection"⟩))
      ⟨"v1", 1⟩ (World.start ())).1 =
      .ok ⟨"v1", some ⟨1, "name", "", "", "", "", "description", some ⟨5, 0⟩⟩⟩ := by
  decide

/-- C4, amended: when Read runs its query and the call returns `r`: a query error gives
Unknown; no row and no iteration error gives NotFound; an iteration error before the first
row gives Unknown; exactly one row that scans, whose Date lies in the range of wire
timestamps (from 0001-01-01 to before 10000-01-01) and after which the iteration ends without
error, gives a success response with api "v1" and the product built from the columns in the
order ID, Name, Price, Creator, Unit, Category, Description, Date; a single row that does not
scan or whose Date lies outside that range gives Unknown; two or more rows give Unknown. -/
theorem read_outcome_of_rows {σ : Type} (d : Driver σ) (req : ReadRequest) (s : σ)
    (q : Query) (r : Except String Rows)
    (h : Event.query q r ∈ (Read d req (World.start s)).2.trace) :
    (∀ e, r = .error e → (Read d req (World.start s)).1.code = some .Unknown) ∧
    (∀ rows, r = .ok rows →
      (rows.rows = [] → rows.err = none →
        (Read d req (World.start s)).1.code = some .NotFound) ∧
      (rows.rows = [] → rows.err ≠ none →
        (Read d req (World.start s)).1.code = some .Unknown) ∧
      (∀ c, rows.rows = [.ok c] → rows.err = none →
        -62135596800 ≤ c.c8.sec → c.c8.sec < 253402300800 →
        (Read d req (World.start s)).1 =
          .ok ⟨"v1", some ⟨c.c1, c.c2, c.c3, c.c4, c.c5, c.c6, c.c7,
            some ⟨c.c8.sec, c.c8.nsec.val⟩⟩⟩) ∧
      (∀ e, rows.rows = [.error e] → (Read d req (World.start s)).1.code = some .Unknown) ∧
      (∀ c, rows.rows = [.ok c] → (c.c8.sec < -62135596800 ∨ 253402300800 ≤ c.c8.sec) →
        (Read d req (World.start s)).1.code = some .Unknown) ∧
      (2 ≤ rows.rows.length → (Read d req (World.start s)).1.code = some .Unknown)) := by
  obtain ⟨hok, herr⟩ := read_rows_of_query d req s q r h
  refine ⟨?_, ?_⟩
  · intro e he
    rw [herr e he]
    rfl
  · intro rows hr
    rw [hok rows hr]
    refine ⟨?_, ?_, ?_, ?_, ?_, ?_⟩
    · intro h1 h2
      simp [Read.rows, h1, h2, Outcome.code]
    · intro h1 h2
      rcases he : rows.err with _ | e
      · exact absurd he h2
      · simp [Read.rows, h1, he, Outcome.code]
    · intro c h1 _ h3 h4
      simp [Read.rows, h1, ptypes.TimestampProto_ok c.c8 h3 h4, apiVersion]
    · intro e h1
      simp [Read.rows, h1, Outcome.code]
    · intro c h1 h3
      obtain ⟨e, he⟩ := ptypes.TimestampProto_error c.c8 h3
      simp [Read.rows, h1, he, Outcome.code]
    · intro h2
      rcases hrows : rows.rows with _ | ⟨a, _ | ⟨b, l⟩⟩
      · rw [hrows] at h2; simp at h2
      · rw [hrows] at h2; simp at h2
      · rcases a with e | c
        · simp [Read.rows, hrows, Outcome.code]
        · rcases ht : ptypes.TimestampProto c.c8 with e | ts
          · simp [Read.rows, hrows, ht, Outcome.code]
          · simp [Read.rows, hrows, ht, Outcome.code]

/-- C4, witness: the stubs of the tests "OK" (one row) and "Not found" (no row). -/
theorem read_outcome_of_rows_witness :
    (Read (stubDriver (.ok ()) (fun _ => .error "")
        (fun _ => .ok ⟨[.ok ⟨1, "name", "", "", "", "", "description", ⟨5, 0⟩⟩], none⟩))
      ⟨"v1", 1⟩ (World.start ())).1 =
      .ok ⟨"v1", some ⟨1, "name", "", "", "", "", "description", some ⟨5, 0⟩⟩⟩ ∧
    (Read (stubDriver (.ok ()) (fun _ => .error "") (fun _ => .ok ⟨[], none⟩))
      ⟨"v1", 1⟩ (World.start ())).1.code = some .NotFound :=
  ⟨((read_outcome_of_rows
      (stubDriver (.ok ()) (fun _ => .error "")
        (fun _ => .ok ⟨[.ok ⟨1, "name", "", "", "", "", "description", ⟨5, 0⟩⟩], none⟩))
      ⟨"v1", 1⟩ () (.selectByID 1)
      (.ok ⟨[.ok ⟨1, "name", "", "", "", "", "description", ⟨5, 0⟩⟩], none⟩)
      (by decide)).2 _ rfl).2.2.1 _ rfl rfl (by decide) (by decide),
   ((read_outcome_of_rows
      (stubDriver (.ok ()) (fun _ => .error "") (fun _ => .ok ⟨[], none⟩))
      ⟨"v1", 1⟩ () (.selectByID 1) (.ok ⟨[], none⟩) (by decide)).2 _ rfl).1 rfl rfl⟩

/-! ## ReadAll and the rows of its query -/

theorem readAll_rows_of_query {σ : Type} (d : Driver σ) (req : ReadAllRequest) (s : σ)
    (q : Query) (rows : Rows)
    (h : Event.query q (.ok rows) ∈ (ReadAll d req (World.start s)).2.trace) :
    (ReadAll d req (World.start s)).1 = ReadAll.rows rows := by
  revert h
  rcases hapi : checkAPI req.Api with _ | e0
  · rcases hc : d.conn s with ⟨(e | u), s1⟩
    · simp [ReadAll, hapi, connect, World.start, hc]
    · rcases hq : d.query .selectAll s1 with ⟨(e | rows1), s2⟩
      · simp [ReadAll, hapi, connect, World.start, hc, ReadAll.body, QueryContext, hq, Close]
      · simp only [ReadAll, hapi, connect, World.start, hc, ReadAll.body, QueryContext, hq,
          Close, RowsClose, List.nil_append, List.cons_append, List.mem_cons,
          List.mem_append, List.mem_singleton, List.not_mem_nil, Event.query.injEq,
          reduceCtorEq, false_and, and_false, or_false, false_or, Except.ok.injEq]
        rintro ⟨-, rfl⟩
        rfl
  · simp [ReadAll, hapi, World.start]

theorem ReadAll.loop_ok (cs : List Cols) (list : List ProductProto)
    (hd : ∀ c ∈ cs, -62135596800 ≤ c.c8.sec ∧ c.c8.sec < 253402300800) :
    ∃ more, ReadAll.loop (cs.map .ok) list = .ok (list ++ more) ∧
      more.map (fun p => p.Id) = cs.map (fun c => c.c1) := by
  induction cs generalizing list with
  | nil => exact ⟨[], by simp [ReadAll.loop], rfl⟩
  | cons c l ih =>
    obtain ⟨ts, hts⟩ : ∃ ts, ptypes.TimestampProto c.c8 = .ok ts :=
      ⟨_, ptypes.TimestampProto_ok c.c8 (hd c (List.mem_cons_self _ _)).1
        (hd c (List.mem_cons_self _ _)).2⟩
    obtain ⟨more, h1, h2⟩ := ih
      (list ++ [{ Id := c.c1, Name := c.c2, Price := c.c3, Unit := c.c4, Category := c.c5,
                  Creator := c.c6, Description := c.c7, Date := some ts }])
      (fun x hx => hd x (List.mem_cons_of_mem _ hx))
    refine ⟨{ Id := c.c1, Name := c.c2, Price := c.c3, Unit := c.c4, Category := c.c5,
              Creator := c.c6, Description := c.c7, Date := some ts } :: more, ?_, ?_⟩
    · simp only [List.map_cons, ReadAll.loop, hts]
      rw [h1, List.append_assoc]
      rfl
    · simp [h2]

/-- C8, counterexample: a query that returns one scannable row without error, the row's Date
being 10000-01-01, makes ReadAll fail with Unknown instead of returning one product. -/
theorem readAll_scannable_row_fails :
    (ReadAll (stubDriver (.ok ()) (fun _ => .error "")
        (fun _ => .ok ⟨[.ok ⟨1, "name 1", "", "", "", "", "description 1",
          ⟨253402300800, 0⟩⟩], none⟩))
      ⟨"v1"⟩ (World.start ())).1.code = some .Unknown := by
  decide

/-- C8, amended: when the query of ReadAll returns `k` rows that all scan and whose Dates all
lie in the range of wire timestamps (from 0001-01-01 to before 10000-01-01), and the
iteration ends without error, ReadAll succeeds with api
"v1" and a list of exactly `k` products whose ids are the ids of the rows in the order the
rows were returned; for `k = 0` the response holds the empty, non-nil list. -/
theorem readAll_outcome_of_rows {σ : Type} (d : Driver σ) (req : ReadAllRequest) (s : σ)
    (q : Query) (cs : List Cols)
    (h : Event.query q (.ok ⟨cs.map .ok, none⟩) ∈ (ReadAll d req (World.start s)).2.trace)
    (hd : ∀ c ∈ cs, -62135596800 ≤ c.c8.sec ∧ c.c8.sec < 253402300800) :
    (∃ list, (ReadAll d req (World.start s)).1 = .ok ⟨"v1", some list⟩ ∧
      list.length = cs.length ∧ list.map (fun p => p.Id) = cs.map (fun c => c.c1)) ∧
    (cs = [] → (ReadAll d req (World.start s)).1 = .ok ⟨"v1", some []⟩) := by
  rw [readAll_rows_of_query d req s q _ h]
  obtain ⟨more, h1, h2⟩ := ReadAll.loop_ok cs [] hd
  have hlen : more.length = cs.length := by
    have := congrArg List.length h2
    simpa using this
  simp only [List.nil_append] at h1
  constructor
  · exact ⟨more, by simp [ReadAll.rows, h1, apiVersion], hlen, h2⟩
  · intro hcs
    subst hcs
    have hm : more = [] := List.length_eq_zero.mp hlen
    subst hm
    simp [ReadAll.rows, ReadAll.loop, apiVersion]

/-- C8, witness: the stubs of the tests "OK" (two rows) and "Empty" (no row). -/
theorem readAll_outcome_of_rows_witness :
    (∃ list, (ReadAll (stubDriver (.ok ()) (fun _ => .error "")
          (fun _ => .ok ⟨[.ok ⟨1, "name 1", "", "", "", "", "description 1", ⟨5, 0⟩⟩,
            .ok ⟨2, "name 2", "", "", "", "", "description 2", ⟨6, 0⟩⟩], none⟩))
        ⟨"v1"⟩ (World.start ())).1 = .ok ⟨"v1", some list⟩ ∧
      list.length = 2 ∧ list.map (fun p => p.Id) = [1, 2]) ∧
    (ReadAll (stubDriver (.ok ()) (fun _ => .error "") (fun _ => .ok ⟨[], none⟩))
      ⟨"v1"⟩ (World.start ())).1 = .ok ⟨"v1", some []⟩ :=
  ⟨(readAll_outcome_of_rows
      (stubDriver (.ok ()) (fun _ => .error "")
        (fun _ => .ok ⟨[.ok ⟨1, "name 1", "", "", "", "", "description 1", ⟨5, 0⟩⟩,
          .ok ⟨2, "name 2", "", "", "", "", "description 2", ⟨6, 0⟩⟩], none⟩))
      ⟨"v1"⟩ () .selectAll
      [⟨1, "name 1", "", "", "", "", "description 1", ⟨5, 0⟩⟩,
       ⟨2, "name 2", "", "", "", "", "description 2", ⟨6, 0⟩⟩]
      (by decide) (by decide)).1,
   (readAll_outcome_of_rows
      (stubDriver (.ok ()) (fun _ => .error "") (fun _ => .ok ⟨[], none⟩))
      ⟨"v1"⟩ () .selectAll [] (by decide) (by decide)).2 rfl⟩

/-- C6, witness: the stubs of the tests "Not Found" (count 0) and "OK" (count 1). -/
theorem rows_affected_outcome_witness :
    (Update (stubDriver (.ok ()) (fun _ => .ok (Result.done 1 0)) (fun _ => .error ""))
      ⟨"v1", some ⟨1, "new name", "", "", "", "", "new description", some ⟨5, 0⟩⟩⟩
      (World.start ())).1.code = some .NotFound ∧
    (Delete (stubDriver (.ok ()) (fun _ => .ok (Result.done 1 1)) (fun _ => .error ""))
      ⟨"v1", 1⟩ (World.start ())).1 = .ok ⟨"v1", 1⟩ :=
  ⟨(((rows_affected_outcome
      (stubDriver (.ok ()) (fun _ => .ok (Result.done 1 0)) (fun _ => .error "")) ()
      (.update "new name" "" "" "" "" "new description" ⟨5, 0⟩ 1)
      (.ok (Result.done 1 0))).1
      ⟨"v1", some ⟨1, "new name", "", "", "", "", "new description", some ⟨5, 0⟩⟩⟩
      (by decide)).1 _ 0 rfl rfl).1 rfl,
   (((rows_affected_outcome
      (stubDriver (.ok ()) (fun _ => .ok (Result.done 1 1)) (fun _ => .error "")) ()
      (.delete 1) (.ok (Result.done 1 1))).2.1 ⟨"v1", 1⟩ (by decide)).1 _ 1 rfl rfl).2
      (by decide)⟩

/-! ## Create followed by Read -/

theorem Create.on_missing_table (f : Bool) (api : String) (p : ProductProto) (ts : Timestamp)
    (w : World DB) (ha : checkAPI api = none) (hd : p.Date = some ts)
    (hv : ptypes.validateTimestamp (some ts) = none) (hw : w.db = ⟨none⟩) :
    (Create (tableDriver f) ⟨api, some p⟩ w).1 = .ok ⟨"v1", 1⟩ ∧
      (Create (tableDriver f) ⟨api, some p⟩ w).2.db =
        ⟨some ⟨[⟨1, p.Name, p.Price, p.Creator, p.Unit, p.Category, p.Description,
          ⟨ts.Seconds, 0⟩⟩], 2⟩⟩ := by
  have ht := ptypes.Timestamp_valid ts hv
  have hs := Table.stored_Unix ts hv
  simp [Create, ha, connect, tableDriver, Create.body, hd, ht, ExecContext, DB.exec, hw,
    createTable, Create.insert, Create.reply, Result.done, Close, hs, apiVersion]

theorem create_on_table (f : Bool) (api : String) (p : ProductProto) (ts : Timestamp)
    (w : World DB) (t : Table) (ha : checkAPI api = none) (hd : p.Date = some ts)
    (hv : ptypes.validateTimestamp (some ts) = none) (hw : w.db = ⟨some t⟩) :
    (t.rows.any (fun r => r.ID = t.nextID) = true →
      (Create (tableDriver f) ⟨api, some p⟩ w).1.code = some .Unknown) ∧
    (t.rows.any (fun r => r.ID = t.nextID) = false →
      (Create (tableDriver f) ⟨api, some p⟩ w).1 = .ok ⟨"v1", t.nextID⟩ ∧
      (Create (tableDriver f) ⟨api, some p⟩ w).2.db =
        ⟨some ⟨t.rows ++ [⟨t.nextID, p.Name, p.Price, p.Creator, p.Unit, p.Category,
          p.Description, ⟨ts.Seconds, 0⟩⟩], t.nextID + 1⟩⟩) := by
  have ht := ptypes.Timestamp_valid ts hv
  have hs := Table.stored_Unix ts hv
  constructor
  · intro hany
    simp [Create, ha, connect, tableDriver, Create.body, hd, ht, ExecContext, DB.exec, hw,
      Create.insert, Create.reply, hany, Outcome.code]
  · intro hany
    simp [Create, ha, connect, tableDriver, Create.body, hd, ht, ExecContext, DB.exec, hw,
      Create.insert, Create.reply, Result.done, Close, hs, apiVersion, hany]

theorem Table.filter_append_new (rows : List Row) (r0 : Row)
    (h : rows.any (fun r => r.ID = r0.ID) = false) :
    (rows ++ [r0]).filter (fun r => r.ID = r0.ID) = [r0] := by
  have hnone : rows.filter (fun r => decide (r.ID = r0.ID)) = [] := by
    rw [List.filter_eq_nil_iff]
    intro r hr hre
    have : rows.any (fun r => decide (r.ID = r0.ID)) = true :=
      List.any_eq_true.mpr ⟨r, hr, hre⟩
    rw [h] at this
    cases this
  simp [List.filter_append, hnone]

theorem Read.rows_single (req : ReadRequest) (r : Row) (h1 : -62135596800 ≤ r.Date.sec)
    (h2 : r.Date.sec < 253402300800) :
    Read.rows req ⟨[r].map (fun r => .ok (Table.select r)), none⟩ =
      .ok ⟨"v1", some ⟨r.ID, r.Name, r.Price, r.Creator, r.Unit, r.Category, r.Description,
        some ⟨r.Date.sec, r.Date.nsec.val⟩⟩⟩ := by
  have h := ptypes.TimestampProto_ok r.Date h1 h2
  simp [Read.rows, Table.select, h, apiVersion]

/-- C3: on the table, for every product P with a well-formed date and every state of the
database, if Create(P) succeeds with id N then the Read(N) that follows succeeds and returns
the product with id N, with the name, price, creator, unit, category and description of P,
and with the date of P cut to the precision of the column (whole seconds). -/
theorem create_then_read (f : Bool) (w : World DB) (api api2 : String) (P : ProductProto)
    (ts : Timestamp) (N : Int) (hd : P.Date = some ts)
    (hv : ptypes.validateTimestamp (some ts) = none)
    (hc : (Create (tableDriver f) ⟨api, some P⟩ w).1 = .ok ⟨"v1", N⟩)
    (h2 : api2 = "" ∨ api2 = "v1") :
    (Read (tableDriver f) ⟨api2, N⟩ (Create (tableDriver f) ⟨api, some P⟩ w).2).1 =
      .ok ⟨"v1", some ⟨N, P.Name, P.Price, P.Creator, P.Unit, P.Category, P.Description,
        some ⟨ts.Seconds, 0⟩⟩⟩ := by
  have ha2 : checkAPI api2 = none := (checkAPI_eq_none api2).mpr h2
  have hvr := (ptypes.validate_none ts).mp hv
  rcases ha : checkAPI api with _ | st
  · rcases hw : w.db with ⟨_ | t⟩
    · obtain ⟨h1, h3⟩ := Create.on_missing_table f api P ts w ha hd hv hw
      rw [h1] at hc
      simp only [Outcome.ok.injEq, CreateResponse.mk.injEq, true_and] at hc
      subst hc
      rw [(read_on_table f api2 1 _ _ ha2 h3).1]
      exact Read.rows_single _ _ hvr.1 hvr.2.1
    · obtain ⟨hdup, hnew⟩ := create_on_table f api P ts w t ha hd hv hw
      rcases hany : t.rows.any (fun r => r.ID = t.nextID) with _ | _
      · obtain ⟨h1, h3⟩ := hnew hany
        rw [h1] at hc
        simp only [Outcome.ok.injEq, CreateResponse.mk.injEq, true_and] at hc
        subst hc
        rw [(read_on_table f api2 t.nextID _ _ ha2 h3).1]
        have hf := Table.filter_append_new t.rows
          ⟨t.nextID, P.Name, P.Price, P.Creator, P.Unit, P.Category, P.Description,
            ⟨ts.Seconds, 0⟩⟩ hany
        simp only at hf
        rw [hf]
        exact Read.rows_single _ _ hvr.1 hvr.2.1
      · have := hdup hany
        rw [hc] at this
        simp [Outcome.code] at this
  · simp [Create, ha] at hc

/-- C3, witness: the product of the client (cmd/client-grpc) created in an empty database. -/
theorem create_then_read_witness :
    (Create (tableDriver false)
      ⟨"v1", some ⟨0, "Potato", "5", "Marty", "Kg", "vegetable", "Buy my Potato",
        some ⟨1600000000, 123456789⟩⟩⟩ (World.start ⟨none⟩)).1 = .ok ⟨"v1", 1⟩ ∧
    (Read (tableDriver false) ⟨"v1", 1⟩
      (Create (tableDriver false)
        ⟨"v1", some ⟨0, "Potato", "5", "Marty", "Kg", "vegetable", "Buy my Potato",
          some ⟨1600000000, 123456789⟩⟩⟩ (World.start ⟨none⟩)).2).1 =
      .ok ⟨"v1", some ⟨1, "Potato", "5", "Marty", "Kg", "vegetable", "Buy my Potato",
        some ⟨1600000000, 0⟩⟩⟩ :=
  ⟨by decide,
   create_then_read false (World.start ⟨none⟩) "v1" "v1"
     ⟨0, "Potato", "5", "Marty", "Kg", "vegetable", "Buy my Potato",
       some ⟨1600000000, 123456789⟩⟩ ⟨1600000000, 123456789⟩ 1 rfl (by decide) (by decide)
     (Or.inr rfl)⟩

/-! ## Update and Delete followed by Read -/

theorem Table.filter_and (rows : List Row) (id : Int) (q : Row → Bool) :
    rows.filter (fun r => decide (r.ID = id) && q r) =
      (rows.filter (fun r => decide (r.ID = id))).filter q := by
  induction rows with
  | nil => rfl
  | cons a l ih =>
    by_cases h : a.ID = id
    · by_cases hq : q a = true
      · simp [List.filter_cons, h, hq, ih]
      · simp [List.filter_cons, h, hq, ih]
    · simp [List.filter_cons, h, ih]

theorem Table.filter_update_other (a1 a2 a3 a4 a5 a6 : String) (a7 : Time) (a8 id : Int)
    (rows : List Row) (h : id ≠ a8) :
    (rows.map (Table.updateRow a1 a2 a3 a4 a5 a6 a7 a8)).filter (fun r => r.ID = id) =
      rows.filter (fun r => r.ID = id) := by
  rw [Table.filter_map_update]
  apply Table.map_update_other
  intro r hr
  have := (List.mem_filter.mp hr).2
  simp only [decide_eq_true_eq] at this
  rw [this]
  exact h

theorem Table.filter_delete_same (rows : List Row) (id : Int) :
    (rows.filter (fun r => r.ID ≠ id)).filter (fun r => r.ID = id) = [] := by
  rw [List.filter_eq_nil_iff]
  intro r hr
  have := (List.mem_filter.mp hr).2
  simpa using this

theorem Table.filter_delete_other (rows : List Row) (id m : Int) (h : m ≠ id) :
    (rows.filter (fun r => r.ID ≠ id)).filter (fun r => r.ID = m) =
      rows.filter (fun r => r.ID = m) := by
  rw [List.filter_filter]
  apply List.filter_congr
  intro x _
  by_cases hx : x.ID = m
  · have hne : x.ID ≠ id := fun e => h (hx.symm.trans e)
    simp [hx, hne, h]
  · simp [hx]

theorem Table.filter_update_keep (a1 a2 a3 a4 a5 a6 : String) (a7 : Time) (a8 : Int)
    (rows : List Row) :
    (rows.map (Table.updateRow a1 a2 a3 a4 a5 a6 a7 a8)).filter (fun r => r.ID ≠ a8) =
      rows.filter (fun r => r.ID ≠ a8) := by
  induction rows with
  | nil => rfl
  | cons a l ih =>
    simp only [ne_eq, decide_not] at ih ⊢
    by_cases h : a.ID = a8
    · simp [List.filter_cons, Table.updateRow_ID, h, ih]
    · simp [List.filter_cons, Table.updateRow_ID, h, ih,
        Table.updateRow_other _ _ _ _ _ _ _ _ _ h]

/-- C5, counterexample: (1) on a connection that reports changed rows, an Update that
repeats the stored values of the existing row 1 fails with NotFound; (2) after an Update
whose date has Nanos=5, Read returns the date with Nanos=0, not the date of the request. -/
theorem update_existing_id_not_exact :
    (Update (tableDriver false)
      ⟨"v1", some ⟨1, "Potato", "5", "Marty", "Kg", "vegetable", "Buy", some ⟨100, 0⟩⟩⟩
      (World.start ⟨some ⟨[⟨1, "Potato", "5", "Marty", "Kg", "vegetable", "Buy", ⟨100, 0⟩⟩],
        2⟩⟩)).1.code = some .NotFound ∧
    (Read (tableDriver true) ⟨"v1", 1⟩
      (Update (tableDriver true)
        ⟨"v1", some ⟨1, "Potato", "5", "Marty", "Kg", "vegetable", "Buy", some ⟨100, 5⟩⟩⟩
        (World.start ⟨some ⟨[⟨1, "Potato", "5", "Marty", "Kg", "vegetable", "Buy", ⟨7, 0⟩⟩],
          2⟩⟩)).2).1 =
      .ok ⟨"v1", some ⟨1, "Potato", "5", "Marty", "Kg", "vegetable", "Buy", some ⟨100, 0⟩⟩⟩ ∧
    (some ⟨100, 0⟩ : Option Timestamp) ≠ some ⟨100, 5⟩ := by
  decide

/-- C5, amended: on a table that keeps its primary key and contains a row with id N, an
Update request with id N and a well-formed date succeeds with updated count 1, provided the
connection reports matched rows or the request changes a stored value of the row.  With or
without that proviso, the Read(N) that follows returns the name, price, creator, unit,
category and description of the request with id N, and the date of the request cut to whole
seconds; and the rows with another id are unchanged, in the table and as Read returns
them. -/
theorem update_then_read (f : Bool) (w : World DB) (t : Table) (api api2 : String)
    (p : ProductProto) (ts : Timestamp) (r0 : Row)
    (hw : w.db = ⟨some t⟩) (hu : t.Unique) (hm : r0 ∈ t.rows) (hid : r0.ID = p.Id)
    (ha : api = "" ∨ api = "v1") (ha2 : api2 = "" ∨ api2 = "v1")
    (hd : p.Date = some ts) (hv : ptypes.validateTimestamp (some ts) = none) :
    ((f = true ∨ r0 ≠ ⟨p.Id, p.Name, p.Price, p.Creator, p.Unit, p.Category,
        p.Description, ⟨ts.Seconds, 0⟩⟩) →
      (Update (tableDriver f) ⟨api, some p⟩ w).1 = .ok ⟨"v1", 1⟩) ∧
    (Read (tableDriver f) ⟨api2, p.Id⟩ (Update (tableDriver f) ⟨api, some p⟩ w).2).1 =
      .ok ⟨"v1", some ⟨p.Id, p.Name, p.Price, p.Creator, p.Unit, p.Category, p.Description,
        some ⟨ts.Seconds, 0⟩⟩⟩ ∧
    (∀ M, M ≠ p.Id →
      (Read (tableDriver f) ⟨api2, M⟩ (Update (tableDriver f) ⟨api, some p⟩ w).2).1 =
        (Read (tableDriver f) ⟨api2, M⟩ w).1) ∧
    (∃ t1, (Update (tableDriver f) ⟨api, some p⟩ w).2.db = ⟨some t1⟩ ∧
      t1.rows.filter (fun r => r.ID ≠ p.Id) = t.rows.filter (fun r => r.ID ≠ p.Id)) := by
  have hca : checkAPI api = none := (checkAPI_eq_none api).mpr ha
  have hca2 : checkAPI api2 = none := (checkAPI_eq_none api2).mpr ha2
  have hvr := (ptypes.validate_none ts).mp hv
  obtain ⟨hout, hdb⟩ := update_on_table f api p ts w t hca hd hv hw
  have hfil : t.rows.filter (fun r => decide (r.ID = p.Id)) = [r0] := by
    have := Table.filter_unique t.rows r0 hu hm
    rw [hid] at this
    exact this
  have hupd : Table.updateRow p.Name p.Price p.Unit p.Category p.Creator p.Description
      (time.Unix ts.Seconds ts.Nanos) p.Id r0 =
      ⟨p.Id, p.Name, p.Price, p.Creator, p.Unit, p.Category, p.Description,
        ⟨ts.Seconds, 0⟩⟩ := by
    simp [Table.updateRow, hid, Table.stored_Unix ts hv]
  refine ⟨?_, ?_, ?_, ?_⟩
  · intro hch
    rw [hout]
    by_cases hf : f = true
    · simp [hf, hfil, Update.reply, Result.done, apiVersion]
    · have hne : Table.updateRow p.Name p.Price p.Unit p.Category p.Creator p.Description
          (time.Unix ts.Seconds ts.Nanos) p.Id r0 ≠ r0 := by
        rw [hupd]
        exact fun e => (hch.resolve_left hf) e.symm
      have hfil2 : t.rows.filter (fun r => decide (r.ID = p.Id ∧
          Table.updateRow p.Name p.Price p.Unit p.Category p.Creator p.Description
            (time.Unix ts.Seconds ts.Nanos) p.Id r ≠ r)) = [r0] := by
        have hfun : (fun r : Row => decide (r.ID = p.Id ∧
            Table.updateRow p.Name p.Price p.Unit p.Category p.Creator p.Description
              (time.Unix ts.Seconds ts.Nanos) p.Id r ≠ r)) =
            (fun r : Row => decide (r.ID = p.Id) &&
              decide (Table.updateRow p.Name p.Price p.Unit p.Category p.Creator
                p.Description (time.Unix ts.Seconds ts.Nanos) p.Id r ≠ r)) := by
          funext r
          exact Bool.decide_and _ _
        rw [hfun, Table.filter_and, hfil, List.filter_cons, if_pos (decide_eq_true hne),
          List.filter_nil]
      rw [if_neg hf, hfil2]
      simp [Update.reply, Result.done, apiVersion]
  · rw [(read_on_table f api2 p.Id _ _ hca2 hdb).1]
    simp only
    rw [Table.filter_map_update, hfil, List.map_cons, List.map_nil, hupd]
    exact Read.rows_single _ _ hvr.1 hvr.2.1
  · intro M hM
    rw [(read_on_table f api2 M _ _ hca2 hdb).1, (read_on_table f api2 M w t hca2 hw).1]
    simp only
    rw [Table.filter_update_other _ _ _ _ _ _ _ _ _ _ hM]
  · exact ⟨_, hdb, Table.filter_update_keep _ _ _ _ _ _ _ _ _⟩

/-- C5, witness: the Update of the client (creator and description changed) on the table
that holds the product created before, with a second row beside it. -/
theorem update_then_read_witness :
    (Update (tableDriver false)
      ⟨"v1", some ⟨1, "Potato", "5", "Marty + updated", "Kg", "vegetable",
        "Buy my Potato + updated", some ⟨1600000000, 0⟩⟩⟩
      (World.start ⟨some ⟨[⟨1, "Potato", "5", "Marty", "Kg", "vegetable", "Buy my Potato",
          ⟨1600000000, 0⟩⟩,
        ⟨2, "Leek", "2", "Ann", "Kg", "vegetable", "", ⟨1600000001, 0⟩⟩], 3⟩⟩)).1 =
      .ok ⟨"v1", 1⟩ ∧
    (Read (tableDriver false) ⟨"v1", 1⟩
      (Update (tableDriver false)
        ⟨"v1", some ⟨1, "Potato", "5", "Marty + updated", "Kg", "vegetable",
          "Buy my Potato + updated", some ⟨1600000000, 0⟩⟩⟩
        (World.start ⟨some ⟨[⟨1, "Potato", "5", "Marty", "Kg", "vegetable", "Buy my Potato",
            ⟨1600000000, 0⟩⟩,
          ⟨2, "Leek", "2", "Ann", "Kg", "vegetable", "", ⟨1600000001, 0⟩⟩], 3⟩⟩)).2).1 =
      .ok ⟨"v1", some ⟨1, "Potato", "5", "Marty + updated", "Kg", "vegetable",
        "Buy my Potato + updated", some ⟨1600000000, 0⟩⟩⟩ :=
  have h := update_then_read false
    (World.start ⟨some ⟨[⟨1, "Potato", "5", "Marty", "Kg", "vegetable", "Buy my Potato",
        ⟨1600000000, 0⟩⟩,
      ⟨2, "Leek", "2", "Ann", "Kg", "vegetable", "", ⟨1600000001, 0⟩⟩], 3⟩⟩)
    ⟨[⟨1, "Potato", "5", "Marty", "Kg", "vegetable", "Buy my Potato", ⟨1600000000, 0⟩⟩,
      ⟨2, "Leek", "2", "Ann", "Kg", "vegetable", "", ⟨1600000001, 0⟩⟩], 3⟩
    "v1" "v1"
    ⟨1, "Potato", "5", "Marty + updated", "Kg", "vegetable", "Buy my Potato + updated",
      some ⟨1600000000, 0⟩⟩
    ⟨1600000000, 0⟩
    ⟨1, "Potato", "5", "Marty", "Kg", "vegetable", "Buy my Potato", ⟨1600000000, 0⟩⟩
    rfl (by decide) (by decide) rfl (Or.inr rfl) (Or.inr rfl) rfl (by decide)
  ⟨h.1 (Or.inr (by decide)), h.2.1⟩

/-- C7: on a table that keeps its primary key and contains a row with id N, Delete(N)
succeeds with deleted count 1, the Read(N) that follows fails with NotFound, and Read of any
other id returns what it returned before the Delete. -/
theorem delete_then_read (f : Bool) (w : World DB) (t : Table) (api api2 : String) (N : Int)
    (r0 : Row) (hw : w.db = ⟨some t⟩) (hu : t.Unique) (hm : r0 ∈ t.rows) (hid : r0.ID = N)
    (ha : api = "" ∨ api = "v1") (ha2 : api2 = "" ∨ api2 = "v1") :
    (Delete (tableDriver f) ⟨api, N⟩ w).1 = .ok ⟨"v1", 1⟩ ∧
    (Read (tableDriver f) ⟨api2, N⟩ (Delete (tableDriver f) ⟨api, N⟩ w).2).1.code =
      some .NotFound ∧
    (∀ M, M ≠ N →
      (Read (tableDriver f) ⟨api2, M⟩ (Delete (tableDriver f) ⟨api, N⟩ w).2).1 =
        (Read (tableDriver f) ⟨api2, M⟩ w).1) := by
  have hca : checkAPI api = none := (checkAPI_eq_none api).mpr ha
  have hca2 : checkAPI api2 = none := (checkAPI_eq_none api2).mpr ha2
  obtain ⟨hout, hdb⟩ := delete_on_table f api N w t hca hw
  have hfil : t.rows.filter (fun r => decide (r.ID = N)) = [r0] := by
    have := Table.filter_unique t.rows r0 hu hm
    rw [hid] at this
    exact this
  refine ⟨?_, ?_, ?_⟩
  · rw [hout, hfil]
    simp [Delete.reply, Result.done, apiVersion]
  · rw [(read_on_table f api2 N _ _ hca2 hdb).1]
    simp only
    rw [Table.filter_delete_same]
    simp [Read.rows, Outcome.code]
  · intro M hM
    rw [(read_on_table f api2 M _ _ hca2 hdb).1, (read_on_table f api2 M w t hca2 hw).1]
    simp only
    rw [Table.filter_delete_other _ _ _ hM]

/-- C7, witness: Delete of row 1 of a table with the rows 1 and 2. -/
theorem delete_then_read_witness :
    (Delete (tableDriver false) ⟨"v1", 1⟩
      (World.start ⟨some ⟨[⟨1, "Potato", "5", "Marty", "Kg", "vegetable", "Buy my Potato",
          ⟨1600000000, 0⟩⟩,
        ⟨2, "Leek", "2", "Ann", "Kg", "vegetable", "", ⟨1600000001, 0⟩⟩], 3⟩⟩)).1 =
      .ok ⟨"v1", 1⟩ ∧
    (Read (tableDriver false) ⟨"v1", 1⟩
      (Delete (tableDriver false) ⟨"v1", 1⟩
        (World.start ⟨some ⟨[⟨1, "Potato", "5", "Marty", "Kg", "vegetable", "Buy my Potato",
            ⟨1600000000, 0⟩⟩,
          ⟨2, "Leek", "2", "Ann", "Kg", "vegetable", "", ⟨1600000001, 0⟩⟩], 3⟩⟩)).2).1.code =
      some .NotFound :=
  have h := delete_then_read false
    (World.start ⟨some ⟨[⟨1, "Potato", "5", "Marty", "Kg", "vegetable", "Buy my Potato",
        ⟨1600000000, 0⟩⟩,
      ⟨2, "Leek", "2", "Ann", "Kg", "vegetable", "", ⟨1600000001, 0⟩⟩], 3⟩⟩)
    ⟨[⟨1, "Potato", "5", "Marty", "Kg", "vegetable", "Buy my Potato", ⟨1600000000, 0⟩⟩,
      ⟨2, "Leek", "2", "Ann", "Kg", "vegetable", "", ⟨1600000001, 0⟩⟩], 3⟩
    "v1" "v1" 1
    ⟨1, "Potato", "5", "Marty", "Kg", "vegetable", "Buy my Potato", ⟨1600000000, 0⟩⟩
    rfl (by decide) (by decide) rfl (Or.inr rfl) (Or.inr rfl)
  ⟨h.1, h.2.1⟩

/-! ## The column order of Read and ReadAll -/

/-- C9, the code at the failing input: on the table that holds the product of the client,
Read returns creator "Marty", unit "Kg", category "vegetable", while ReadAll returns the same
row with creator "vegetable", unit "Marty", category "Kg"; the two products differ. -/
theorem readAll_permutes_columns :
    (Read (tableDriver false) ⟨"v1", 1⟩
      (World.start ⟨some ⟨[⟨1, "Potato", "5", "Marty", "Kg", "vegetable", "Buy my Potato",
        ⟨1600000000, 0⟩⟩], 2⟩⟩)).1 =
      .ok ⟨"v1", some ⟨1, "Potato", "5", "Marty", "Kg", "vegetable", "Buy my Potato",
        some ⟨1600000000, 0⟩⟩⟩ ∧
    (ReadAll (tableDriver false) ⟨"v1"⟩
      (World.start ⟨some ⟨[⟨1, "Potato", "5", "Marty", "Kg", "vegetable", "Buy my Potato",
        ⟨1600000000, 0⟩⟩], 2⟩⟩)).1 =
      .ok ⟨"v1", some [⟨1, "Potato", "5", "vegetable", "Marty", "Kg", "Buy my Potato",
        some ⟨1600000000, 0⟩⟩]⟩ ∧
    (⟨1, "Potato", "5", "vegetable", "Marty", "Kg", "Buy my Potato",
        some ⟨1600000000, 0⟩⟩ : ProductProto) ≠
      ⟨1, "Potato", "5", "Marty", "Kg", "vegetable", "Buy my Potato", some ⟨1600000000, 0⟩⟩ := by
  decide

/-! ## The runs of the handlers -/

theorem delete_runs {σ : Type} (d : Driver σ) (req : DeleteRequest) (s : σ) :
    (∃ st, checkAPI req.Api = some st ∧ Delete d req (World.start s) = (.err st, ⟨s, []⟩)) ∨
    (checkAPI req.Api = none ∧ ∃ e s1, d.conn s = (.error e, s1) ∧
      Delete d req (World.start s) =
        (.err ⟨.Unknown, "failed to connect to database-> " ++ e⟩, ⟨s1, [.conn (.error e)]⟩)) ∨
    (checkAPI req.Api = none ∧ ∃ u s1 r s2, d.conn s = (.ok u, s1) ∧
      d.exec (.delete req.Id) s1 = (r, s2) ∧
      Delete d req (World.start s) =
        (Delete.reply req.Id r,
          ⟨d.close s2, [.conn (.ok u), .exec (.delete req.Id) r, .close]⟩)) := by
  rcases hapi : checkAPI req.Api with _ | st
  · rcases hc : d.conn s with ⟨(e | u), s1⟩
    · refine Or.inr (Or.inl ⟨rfl, e, s1, rfl, ?_⟩)
      simp only [Delete, hapi, connect, World.start, hc, List.nil_append]
    · rcases hx : d.exec (.delete req.Id) s1 with ⟨r, s2⟩
      refine Or.inr (Or.inr ⟨rfl, u, s1, r, s2, rfl, hx, ?_⟩)
      simp only [Delete, hapi, connect, World.start, hc, Delete.body, ExecContext, hx, Close,
        List.nil_append, List.cons_append]
  · exact Or.inl ⟨st, rfl, by simp only [Delete, hapi, World.start]⟩

theorem update_runs {σ : Type} (d : Driver σ) (req : UpdateRequest) (s : σ) :
    (∃ st, checkAPI req.Api = some st ∧ Update d req (World.start s) = (.err st, ⟨s, []⟩)) ∨
    (checkAPI req.Api = none ∧ ∃ e s1, d.conn s = (.error e, s1) ∧
      Update d req (World.start s) =
        (.err ⟨.Unknown, "failed to connect to database-> " ++ e⟩, ⟨s1, [.conn (.error e)]⟩)) ∨
    (checkAPI req.Api = none ∧ ∃ u s1, d.conn s = (.ok u, s1) ∧ req.Product = none ∧
      Update d req (World.start s) = (.panic, ⟨d.close s1, [.conn (.ok u), .close]⟩)) ∨
    (checkAPI req.Api = none ∧ ∃ u s1 p e, d.conn s = (.ok u, s1) ∧ req.Product = some p ∧
      (ptypes.Timestamp p.Date).2 = some e ∧
      Update d req (World.start s) =
        (.err ⟨.InvalidArgument, "date field has invalid format-> " ++ e⟩,
          ⟨d.close s1, [.conn (.ok u), .close]⟩)) ∨
    (checkAPI req.Api = none ∧ ∃ u s1 p r s2, d.conn s = (.ok u, s1) ∧ req.Product = some p ∧
      (ptypes.Timestamp p.Date).2 = none ∧
      d.exec (.update p.Name p.Price p.Unit p.Category p.Creator p.Description
        (ptypes.Timestamp p.Date).1 p.Id) s1 = (r, s2) ∧
      Update d req (World.start s) =
        (Update.reply p.Id r,
          ⟨d.close s2, [.conn (.ok u), .exec (.update p.Name p.Price p.Unit p.Category
            p.Creator p.Description (ptypes.Timestamp p.Date).1 p.Id) r, .close]⟩)) := by
  rcases hapi : checkAPI req.Api with _ | st
  · rcases hc : d.conn s with ⟨(e | u), s1⟩
    · refine Or.inr (Or.inl ⟨rfl, e, s1, rfl, ?_⟩)
      simp only [Update, hapi, connect, World.start, hc, List.nil_append]
    · rcases hp : req.Product with _ | p
      · refine Or.inr (Or.inr (Or.inl ⟨rfl, u, s1, rfl, rfl, ?_⟩))
        simp only [Update, hapi, connect, World.start, hc, Update.body, hp, Close,
          List.nil_append, List.cons_append]
      · rcases ht : ptypes.Timestamp p.Date with ⟨date, _ | e⟩
        · rcases hx : d.exec (.update p.Name p.Price p.Unit p.Category p.Creator
            p.Description date p.Id) s1 with ⟨r, s2⟩
          refine Or.inr (Or.inr (Or.inr (Or.inr ⟨rfl, u, s1, p, r, s2, rfl, rfl, by rw [ht],
            by rw [ht]; exact hx, ?_⟩)))
          simp only [Update, hapi, connect, World.start, hc, Update.body, hp, ht, ExecContext,
            hx, Close, List.nil_append, List.cons_append]
        · refine Or.inr (Or.inr (Or.inr (Or.inl ⟨rfl, u, s1, p, e, rfl, rfl, by rw [ht], ?_⟩)))
          simp only [Update, hapi, connect, World.start, hc, Update.body, hp, ht, Close,
            List.nil_append, List.cons_append]
  · exact Or.inl ⟨st, rfl, by simp only [Update, hapi, World.start]⟩

theorem read_runs {σ : Type} (d : Driver σ) (req : ReadRequest) (s : σ) :
    (∃ st, checkAPI req.Api = some st ∧ Read d req (World.start s) = (.err st, ⟨s, []⟩)) ∨
    (checkAPI req.Api = none ∧ ∃ e s1, d.conn s = (.error e, s1) ∧
      Read d req (World.start s) =
        (.err ⟨.Unknown, "failed to connect to database-> " ++ e⟩, ⟨s1, [.conn (.error e)]⟩)) ∨
    (checkAPI req.Api = none ∧ ∃ u s1 e s2, d.conn s = (.ok u, s1) ∧
      d.query (.selectByID req.Id) s1 = (.error e, s2) ∧
      Read d req (World.start s) =
        (.err ⟨.Unknown, "failed to select from Product-> " ++ e⟩,
          ⟨d.close s2, [.conn (.ok u), .query (.selectByID req.Id) (.error e), .close]⟩)) ∨
    (checkAPI req.Api = none ∧ ∃ u s1 rows s2, d.conn s = (.ok u, s1) ∧
      d.query (.selectByID req.Id) s1 = (.ok rows, s2) ∧
      Read d req (World.start s) =
        (Read.rows req rows,
          ⟨d.close s2, [.conn (.ok u), .query (.selectByID req.Id) (.ok rows), .rowsClose,
            .close]⟩)) := by
  rcases hapi : checkAPI req.Api with _ | st
  · rcases hc : d.conn s with ⟨(e | u), s1⟩
    · refine Or.inr (Or.inl ⟨rfl, e, s1, rfl, ?_⟩)
      simp only [Read, hapi, connect, World.start, hc, List.nil_append]
    · rcases hq : d.query (.selectByID req.Id) s1 with ⟨(e | rows), s2⟩
      · refine Or.inr (Or.inr (Or.inl ⟨rfl, u, s1, e, s2, rfl, hq, ?_⟩))
        simp only [Read, hapi, connect, World.start, hc, Read.body, QueryContext, hq, Close,
          List.nil_append, List.cons_append]
      · refine Or.inr (Or.inr (Or.inr ⟨rfl, u, s1, rows, s2, rfl, hq, ?_⟩))
        simp only [Read, hapi, connect, World.start, hc, Read.body, QueryContext, hq, Close,
          RowsClose, List.nil_append, List.cons_append]
  · exact Or.inl ⟨st, rfl, by simp only [Read, hapi, World.start]⟩

theorem readAll_runs {σ : Type} (d : Driver σ) (req : ReadAllRequest) (s : σ) :
    (∃ st, checkAPI req.Api = some st ∧ ReadAll d req (World.start s) = (.err st, ⟨s, []⟩)) ∨
    (checkAPI req.Api = none ∧ ∃ e s1, d.conn s = (.error e, s1) ∧
      ReadAll d req (World.start s) =
        (.err ⟨.Unknown, "failed to connect to database-> " ++ e⟩, ⟨s1, [.conn (.error e)]⟩)) ∨
    (checkAPI req.Api = none ∧ ∃ u s1 e s2, d.conn s = (.ok u, s1) ∧
      d.query .selectAll s1 = (.error e, s2) ∧
      ReadAll d req (World.start s) =
        (.err ⟨.Unknown, "failed to select from Product-> " ++ e⟩,
          ⟨d.close s2, [.conn (.ok u), .query .selectAll (.error e), .close]⟩)) ∨
    (checkAPI req.Api = none ∧ ∃ u s1 rows s2, d.conn s = (.ok u, s1) ∧
      d.query .selectAll s1 = (.ok rows, s2) ∧
      ReadAll d req (World.start s) =
        (ReadAll.rows rows,
          ⟨d.close s2, [.conn (.ok u), .query .selectAll (.ok rows), .rowsClose, .close]⟩)) := by
  rcases hapi : checkAPI req.Api with _ | st
  · rcases hc : d.conn s with ⟨(e | u), s1⟩
    · refine Or.inr (Or.inl ⟨rfl, e, s1, rfl, ?_⟩)
      simp only [ReadAll, hapi, connect, World.start, hc, List.nil_append]
    · rcases hq : d.query .selectAll s1 with ⟨(e | rows), s2⟩
      · refine Or.inr (Or.inr (Or.inl ⟨rfl, u, s1, e, s2, rfl, hq, ?_⟩))
        simp only [ReadAll, hapi, connect, World.start, hc, ReadAll.body, QueryContext, hq,
          Close, List.nil_append, List.cons_append]
      · refine Or.inr (Or.inr (Or.inr ⟨rfl, u, s1, rows, s2, rfl, hq, ?_⟩))
        simp only [ReadAll, hapi, connect, World.start, hc, ReadAll.body, QueryContext, hq,
          Close, RowsClose, List.nil_append, List.cons_append]
  · exact Or.inl ⟨st, rfl, by simp only [ReadAll, hapi, World.start]⟩

theorem create_runs {σ : Type} (d : Driver σ) (req : CreateRequest) (s : σ) :
    (∃ st, checkAPI req.Api = some st ∧ Create d req (World.start s) = (.err st, ⟨s, []⟩)) ∨
    (checkAPI req.Api = none ∧ ∃ e s1, d.conn s = (.error e, s1) ∧
      Create d req (World.start s) =
        (.err ⟨.Unknown, "failed to connect to database-> " ++ e⟩, ⟨s1, [.conn (.error e)]⟩)) ∨
    (checkAPI req.Api = none ∧ ∃ u s1, d.conn s = (.ok u, s1) ∧ req.Product = none ∧
      Create d req (World.start s) = (.panic, ⟨d.close s1, [.conn (.ok u), .close]⟩)) ∨
    (checkAPI req.Api = none ∧ ∃ u s1 p e, d.conn s = (.ok u, s1) ∧ req.Product = some p ∧
      (ptypes.Timestamp p.Date).2 = some e ∧
      Create d req (World.start s) =
        (.err ⟨.InvalidArgument, "date field has invalid format-> " ++ e⟩,
          ⟨d.close s1, [.conn (.ok u), .close]⟩)) ∨
    (checkAPI req.Api = none ∧ ∃ u s1 p e1 s2 e2 s3, d.conn s = (.ok u, s1) ∧
      req.Product = some p ∧ (ptypes.Timestamp p.Date).2 = none ∧
      d.exec .probe s1 = (.error e1, s2) ∧ d.exec .createTable s2 = (.error e2, s3) ∧
      Create d req (World.start s) =
        (.err ⟨.Unknown, "failed to create table -> " ++ e2⟩,
          ⟨d.close s3, [.conn (.ok u), .exec .probe (.error e1),
            .exec .createTable (.error e2), .close]⟩)) ∨
    (checkAPI req.Api = none ∧ ∃ u s1 p e1 s2 r1 s3 ri s4, d.conn s = (.ok u, s1) ∧
      req.Product = some p ∧ (ptypes.Timestamp p.Date).2 = none ∧
      d.exec .probe s1 = (.error e1, s2) ∧ d.exec .createTable s2 = (.ok r1, s3) ∧
      d.exec (.insert p.Name p.Price p.Creator p.Unit p.Category p.Description
        (ptypes.Timestamp p.Date).1) s3 = (ri, s4) ∧
      Create d req (World.start s) =
        (Create.reply ri,
          ⟨d.close s4, [.conn (.ok u), .exec .probe (.error e1), .exec .createTable (.ok r1),
            .exec (.insert p.Name p.Price p.Creator p.Unit p.Category p.Description
              (ptypes.Timestamp p.Date).1) ri, .close]⟩)) ∨
    (checkAPI req.Api = none ∧ ∃ u s1 p r0 s2 ri s3, d.conn s = (.ok u, s1) ∧
      req.Product = some p ∧ (ptypes.Timestamp p.Date).2 = none ∧
      d.exec .probe s1 = (.ok r0, s2) ∧
      d.exec (.insert p.Name p.Price p.Creator p.Unit p.Category p.Description
        (ptypes.Timestamp p.Date).1) s2 = (ri, s3) ∧
      Create d req (World.start s) =
        (Create.reply ri,
          ⟨d.close s3, [.conn (.ok u), .exec .probe (.ok r0),
            .exec (.insert p.Name p.Price p.Creator p.Unit p.Category p.Description
              (ptypes.Timestamp p.Date).1) ri, .close]⟩)) := by
  rcases hapi : checkAPI req.Api with _ | st
  · rcases hc : d.conn s with ⟨(e | u), s1⟩
    · refine Or.inr (Or.inl ⟨rfl, e, s1, rfl, ?_⟩)
      simp only [Create, hapi, connect, World.start, hc, List.nil_append]
    · rcases hp : req.Product with _ | p
      · refine Or.inr (Or.inr (Or.inl ⟨rfl, u, s1, rfl, rfl, ?_⟩))
        simp only [Create, hapi, connect, World.start, hc, Create.body, hp, Close,
          List.nil_append, List.cons_append]
      · rcases ht : ptypes.Timestamp p.Date with ⟨date, _ | e⟩
        · rcases hpr : d.exec .probe s1 with ⟨(e1 | r0), s2⟩
          · rcases hct : d.exec .createTable s2 with ⟨(e2 | r1), s3⟩
            · refine Or.inr (Or.inr (Or.inr (Or.inr (Or.inl
                ⟨rfl, u, s1, p, e1, s2, e2, s3, rfl, rfl, by rw [ht], hpr, hct, ?_⟩))))
              simp only [Create, hapi, connect, World.start, hc, Create.body, hp, ht,
                ExecContext, hpr, createTable, hct, Close, List.nil_append, List.cons_append]
            · rcases hi : d.exec (.insert p.Name p.Price p.Creator p.Unit p.Category
                p.Description date) s3 with ⟨ri, s4⟩
              refine Or.inr (Or.inr (Or.inr (Or.inr (Or.inr (Or.inl
                ⟨rfl, u, s1, p, e1, s2, r1, s3, ri, s4, rfl, rfl, by rw [ht], hpr, hct,
                  by rw [ht]; exact hi, ?_⟩)))))
              simp only [Create, hapi, connect, World.start, hc, Create.body, hp, ht,
                ExecContext, hpr, createTable, hct, Create.insert, hi, Close,
                List.nil_append, List.cons_append]
          · rcases hi : d.exec (.insert p.Name p.Price p.Creator p.Unit p.Category
              p.Description date) s2 with ⟨ri, s3⟩
            refine Or.inr (Or.inr (Or.inr (Or.inr (Or.inr (Or.inr
              ⟨rfl, u, s1, p, r0, s2, ri, s3, rfl, rfl, by rw [ht], hpr,
                by rw [ht]; exact hi, ?_⟩)))))
            simp only [Create, hapi, connect, World.start, hc, Create.body, hp, ht,
              ExecContext, hpr, Create.insert, hi, Close, List.nil_append, List.cons_append]
        · refine Or.inr (Or.inr (Or.inr (Or.inl ⟨rfl, u, s1, p, e, rfl, rfl, by rw [ht], ?_⟩)))
          simp only [Create, hapi, connect, World.start, hc, Create.body, hp, ht, Close,
            List.nil_append, List.cons_append]
  · exact Or.inl ⟨st, rfl, by simp only [Create, hapi, World.start]⟩

/-! ## The existence probe and the creation of the table -/

/-- C13: in Create, when the existence probe succeeds the calls are the lease, the probe, the
INSERT and the release, with no CREATE TABLE; when the probe fails CREATE TABLE is executed
once, right after it, and then either it succeeds and the INSERT follows, or it fails and
Create returns Unknown without an INSERT.  With an accepted version, a well-formed date and
a leased connection the probe is executed.  Read, Update, Delete and ReadAll never execute
the probe or CREATE TABLE. -/
theorem probe_decides_table_creation {σ : Type} (d : Driver σ) (s : σ) :
    (∀ (req : CreateRequest) (r0 : Result),
      Event.exec .probe (.ok r0) ∈ (Create d req (World.start s)).2.trace →
      ∃ u p ri, req.Product = some p ∧
        (Create d req (World.start s)).2.trace =
          [.conn (.ok u), .exec .probe (.ok r0),
           .exec (.insert p.Name p.Price p.Creator p.Unit p.Category p.Description
             (ptypes.Timestamp p.Date).1) ri, .close]) ∧
    (∀ (req : CreateRequest) (e1 : String),
      Event.exec .probe (.error e1) ∈ (Create d req (World.start s)).2.trace →
      (∃ u p r1 ri, req.Product = some p ∧
        (Create d req (World.start s)).2.trace =
          [.conn (.ok u), .exec .probe (.error e1), .exec .createTable (.ok r1),
           .exec (.insert p.Name p.Price p.Creator p.Unit p.Category p.Description
             (ptypes.Timestamp p.Date).1) ri, .close]) ∨
      (∃ u e2,
        (Create d req (World.start s)).2.trace =
          [.conn (.ok u), .exec .probe (.error e1), .exec .createTable (.error e2),
           .close] ∧
        (Create d req (World.start s)).1.code = some .Unknown)) ∧
    (∀ (req : CreateRequest) p u, (req.Api = "" ∨ req.Api = "v1") → req.Product = some p →
      ptypes.validateTimestamp p.Date = none → (d.conn s).1 = .ok u →
      ∃ rp, Event.exec .probe rp ∈ (Create d req (World.start s)).2.trace) ∧
    (∀ st r, st = .probe ∨ st = .createTable →
      (∀ req : ReadRequest, Event.exec st r ∉ (Read d req (World.start s)).2.trace) ∧
      (∀ req : UpdateRequest, Event.exec st r ∉ (Update d req (World.start s)).2.trace) ∧
      (∀ req : DeleteRequest, Event.exec st r ∉ (Delete d req (World.start s)).2.trace) ∧
      (∀ req : ReadAllRequest, Event.exec st r ∉ (ReadAll d req (World.start s)).2.trace)) := by
  refine ⟨?_, ?_, ?_, ?_⟩
  · intro req r0
    rcases create_runs d req s with ⟨st, -, hR⟩ | ⟨-, e, s1, -, hR⟩ | ⟨-, u, s1, -, -, hR⟩ |
      ⟨-, u, s1, p, e, -, -, -, hR⟩ | ⟨-, u, s1, p, e1, s2, e2, s3, -, -, -, -, -, hR⟩ |
      ⟨-, u, s1, p, e1, s2, r1, s3, ri, s4, -, hp, -, -, -, -, hR⟩ |
      ⟨-, u, s1, p, r, s2, ri, s3, -, hp, -, -, -, hR⟩ <;> rw [hR] <;>
      simp only [List.mem_cons, List.mem_singleton, List.not_mem_nil, Event.exec.injEq,
        reduceCtorEq, false_and, and_false, or_false, false_or, false_imp_iff, true_and,
        Except.ok.injEq]
    rintro rfl
    exact ⟨u, p, ri, hp, rfl⟩
  · intro req e0
    rcases create_runs d req s with ⟨st, -, hR⟩ | ⟨-, e, s1, -, hR⟩ | ⟨-, u, s1, -, -, hR⟩ |
      ⟨-, u, s1, p, e, -, -, -, hR⟩ | ⟨-, u, s1, p, e1, s2, e2, s3, -, -, -, -, -, hR⟩ |
      ⟨-, u, s1, p, e1, s2, r1, s3, ri, s4, -, hp, -, -, -, -, hR⟩ |
      ⟨-, u, s1, p, r, s2, ri, s3, -, hp, -, -, -, hR⟩ <;> rw [hR] <;>
      simp only [List.mem_cons, List.mem_singleton, List.not_mem_nil, Event.exec.injEq,
        reduceCtorEq, false_and, and_false, or_false, false_or, false_imp_iff, true_and,
        Except.error.injEq]
    · rintro rfl
      exact Or.inr ⟨u, e2, rfl, rfl⟩
    · rintro rfl
      exact Or.inl ⟨u, p, r1, ri, hp, rfl⟩
  · intro req p u hapi hp hv hu
    have ha : checkAPI req.Api = none := (checkAPI_eq_none req.Api).mpr hapi
    have hts : (ptypes.Timestamp p.Date).2 = none := by simp only [ptypes.Timestamp, hv]
    rcases create_runs d req s with ⟨st, h0, hR⟩ | ⟨-, e, s1, hc, hR⟩ | ⟨-, u, s1, -, h0, hR⟩ |
      ⟨-, u, s1, p1, e, -, hp1, h0, hR⟩ | ⟨-, u, s1, p, e1, s2, e2, s3, -, -, -, -, -, hR⟩ |
      ⟨-, u, s1, p, e1, s2, r1, s3, ri, s4, -, hp, -, -, -, -, hR⟩ |
      ⟨-, u, s1, p, r, s2, ri, s3, -, hp, -, -, -, hR⟩
    · rw [ha] at h0; cases h0
    · rw [hc] at hu; cases hu
    · rw [hp] at h0; cases h0
    · rw [hp] at hp1
      cases hp1
      rw [hts] at h0
      cases h0
    · exact ⟨.error e1, by rw [hR]; simp⟩
    · exact ⟨.error e1, by rw [hR]; simp⟩
    · exact ⟨.ok r, by rw [hR]; simp⟩
  · intro st r hst
    refine ⟨?_, ?_, ?_, ?_⟩
    · intro req
      rcases read_runs d req s with ⟨st, -, hR⟩ | ⟨-, e, s1, -, hR⟩ |
        ⟨-, u, s1, e, s2, -, -, hR⟩ | ⟨-, u, s1, rows, s2, -, -, hR⟩ <;> rw [hR] <;> simp
    · intro req
      rcases update_runs d req s with ⟨st, -, hR⟩ | ⟨-, e, s1, -, hR⟩ | ⟨-, u, s1, -, -, hR⟩ |
        ⟨-, u, s1, p, e, -, -, -, hR⟩ | ⟨-, u, s1, p, r, s2, -, -, -, -, hR⟩ <;> rw [hR] <;>
        rcases hst with rfl | rfl <;> simp
    · intro req
      rcases delete_runs d req s with ⟨st, -, hR⟩ | ⟨-, e, s1, -, hR⟩ |
        ⟨-, u, s1, r, s2, -, -, hR⟩ <;> rw [hR] <;> rcases hst with rfl | rfl <;> simp
    · intro req
      rcases readAll_runs d req s with ⟨st, -, hR⟩ | ⟨-, e, s1, -, hR⟩ |
        ⟨-, u, s1, e, s2, -, -, hR⟩ | ⟨-, u, s1, rows, s2, -, -, hR⟩ <;> rw [hR] <;> simp

/-- C13, witness: on a database without the table the probe fails, the table is created and
the INSERT follows; on a database with the table the probe succeeds and the INSERT follows. -/
theorem probe_decides_table_creation_witness :
    (Create (tableDriver false)
      ⟨"v1", some ⟨0, "Potato", "5", "Marty", "Kg", "vegetable", "Buy my Potato",
        some ⟨1600000000, 0⟩⟩⟩ (World.start ⟨none⟩)).2.trace =
      [.conn (.ok ()), .exec .probe (.error Table.missing),
       .exec .createTable (.ok (Result.done 0 0)),
       .exec (.insert "Potato" "5" "Marty" "Kg" "vegetable" "Buy my Potato" ⟨1600000000, 0⟩)
         (.ok (Result.done 1 1)), .close] ∧
    ∃ u p ri,
      (⟨"v1", some ⟨0, "Potato", "5", "Marty", "Kg", "vegetable", "Buy my Potato",
        some ⟨1600000000, 0⟩⟩⟩ : CreateRequest).Product = some p ∧
      (Create (tableDriver false)
        ⟨"v1", some ⟨0, "Potato", "5", "Marty", "Kg", "vegetable", "Buy my Potato",
          some ⟨1600000000, 0⟩⟩⟩ (World.start ⟨some ⟨[], 1⟩⟩)).2.trace =
        [.conn (.ok u), .exec .probe (.ok (Result.done 0 0)),
         .exec (.insert p.Name p.Price p.Creator p.Unit p.Category p.Description
           (ptypes.Timestamp p.Date).1) ri, .close] :=
  ⟨by decide,
   (probe_decides_table_creation (tableDriver false) ⟨some ⟨[], 1⟩⟩).1
     ⟨"v1", some ⟨0, "Potato", "5", "Marty", "Kg", "vegetable", "Buy my Potato",
       some ⟨1600000000, 0⟩⟩⟩ (Result.done 0 0) (by decide)⟩

/-! ## Leases and releases -/

theorem pooled_conn_ok {σ : Type} (d : Driver σ) (p s1 : Pool σ) (u : Unit)
    (h : (pooled d).conn p = (.ok u, s1)) :
    s1.leased = p.leased + 1 ∧ s1.released = p.released ∧ (d.conn p.db).1 = .ok u := by
  simp only [pooled] at h
  rcases hc : d.conn p.db with ⟨(e | u1), s⟩ <;> rw [hc] at h <;>
    simp only [Prod.mk.injEq, reduceCtorEq, false_and, Except.ok.injEq] at h
  obtain ⟨-, rfl⟩ := h
  exact ⟨rfl, rfl, rfl⟩

theorem pooled_conn_error {σ : Type} (d : Driver σ) (p s1 : Pool σ) (e : String)
    (h : (pooled d).conn p = (.error e, s1)) :
    s1.leased = p.leased ∧ s1.released = p.released ∧ (d.conn p.db).1 = .error e := by
  simp only [pooled] at h
  rcases hc : d.conn p.db with ⟨(e1 | u1), s⟩ <;> rw [hc] at h <;>
    simp only [Prod.mk.injEq, reduceCtorEq, false_and, Except.error.injEq] at h
  obtain ⟨rfl, rfl⟩ := h
  exact ⟨rfl, rfl, rfl⟩

theorem pooled_exec {σ : Type} (d : Driver σ) (st : Stmt) (s1 s2 : Pool σ)
    (r : Except String Result) (h : (pooled d).exec st s1 = (r, s2)) :
    s2.leased = s1.leased ∧ s2.released = s1.released := by
  simp only [pooled, Prod.mk.injEq] at h
  obtain ⟨-, rfl⟩ := h
  exact ⟨rfl, rfl⟩

theorem pooled_query {σ : Type} (d : Driver σ) (q : Query) (s1 s2 : Pool σ)
    (r : Except String Rows) (h : (pooled d).query q s1 = (r, s2)) :
    s2.leased = s1.leased ∧ s2.released = s1.released := by
  simp only [pooled, Prod.mk.injEq] at h
  obtain ⟨-, rfl⟩ := h
  exact ⟨rfl, rfl⟩

theorem pooled_close {σ : Type} (d : Driver σ) (s1 : Pool σ) :
    ((pooled d).close s1).leased = s1.leased ∧
      ((pooled d).close s1).released = s1.released + 1 :=
  ⟨rfl, rfl⟩

theorem pool_step {σ : Type} (api : String) (d : Driver σ) (p q : Pool σ)
    (h : (∃ st, checkAPI api = some st ∧ q = p) ∨
      (checkAPI api = none ∧ ∃ e s1, (pooled d).conn p = (.error e, s1) ∧ q = s1) ∨
      (checkAPI api = none ∧ ∃ u s1, (pooled d).conn p = (.ok u, s1) ∧
        q.leased = s1.leased ∧ q.released = s1.released + 1)) :
    q.leased + p.released = q.released + p.leased ∧
    (q.leased = p.leased ∨ q.leased = p.leased + 1) ∧
    (q.leased = p.leased + 1 ↔ (api = "" ∨ api = "v1") ∧ ∃ u, (d.conn p.db).1 = .ok u) := by
  rcases h with ⟨st, ha, rfl⟩ | ⟨ha, e, s1, hc, rfl⟩ | ⟨ha, u, s1, hc, h1, h2⟩
  · refine ⟨Nat.add_comm _ _, Or.inl rfl, ?_⟩
    constructor
    · intro h; omega
    · rintro ⟨hapi, -⟩
      rw [(checkAPI_eq_none api).mpr hapi] at ha
      cases ha
  · obtain ⟨h1, h2, h3⟩ := pooled_conn_error d p q e hc
    refine ⟨by omega, Or.inl h1, ?_⟩
    constructor
    · intro h; omega
    · rintro ⟨-, u, hu⟩
      rw [h3] at hu
      cases hu
  · obtain ⟨h3, h4, h5⟩ := pooled_conn_ok d p s1 u hc
    refine ⟨by omega, Or.inr (by omega), ?_⟩
    constructor
    · intro _
      exact ⟨(checkAPI_eq_none api).mp ha, u, h5⟩
    · intro _
      omega

theorem create_pool {σ : Type} (d : Driver σ) (req : CreateRequest) (p : Pool σ) :
    (∃ st, checkAPI req.Api = some st ∧ (Create (pooled d) req (World.start p)).2.db = p) ∨
    (checkAPI req.Api = none ∧ ∃ e s1, (pooled d).conn p = (.error e, s1) ∧
      (Create (pooled d) req (World.start p)).2.db = s1) ∨
    (checkAPI req.Api = none ∧ ∃ u s1, (pooled d).conn p = (.ok u, s1) ∧
      (Create (pooled d) req (World.start p)).2.db.leased = s1.leased ∧
      (Create (pooled d) req (World.start p)).2.db.released = s1.released + 1) := by
  rcases create_runs (pooled d) req p with ⟨st, h0, hR⟩ | ⟨h0, e, s1, hc, hR⟩ |
    ⟨h0, u, s1, hc, -, hR⟩ | ⟨h0, u, s1, p1, e, hc, -, -, hR⟩ |
    ⟨h0, u, s1, p1, e1, s2, e2, s3, hc, -, -, h1, h2, hR⟩ |
    ⟨h0, u, s1, p1, e1, s2, r1, s3, ri, s4, hc, -, -, h1, h2, h3, hR⟩ |
    ⟨h0, u, s1, p1, r, s2, ri, s3, hc, -, -, h1, h2, hR⟩
  · exact Or.inl ⟨st, h0, by rw [hR]⟩
  · exact Or.inr (Or.inl ⟨h0, e, s1, hc, by rw [hR]⟩)
  · exact Or.inr (Or.inr ⟨h0, u, s1, hc, by rw [hR]; exact pooled_close d s1⟩)
  · exact Or.inr (Or.inr ⟨h0, u, s1, hc, by rw [hR]; exact pooled_close d s1⟩)
  · refine Or.inr (Or.inr ⟨h0, u, s1, hc, ?_⟩)
    rw [hR]
    have a1 := pooled_exec d _ _ _ _ h1
    have a2 := pooled_exec d _ _ _ _ h2
    have a3 := pooled_close d s3
    simp only
    omega
  · refine Or.inr (Or.inr ⟨h0, u, s1, hc, ?_⟩)
    rw [hR]
    have a1 := pooled_exec d _ _ _ _ h1
    have a2 := pooled_exec d _ _ _ _ h2
    have a3 := pooled_exec d _ _ _ _ h3
    have a4 := pooled_close d s4
    simp only
    omega
  · refine Or.inr (Or.inr ⟨h0, u, s1, hc, ?_⟩)
    rw [hR]
    have a1 := pooled_exec d _ _ _ _ h1
    have a2 := pooled_exec d _ _ _ _ h2
    have a3 := pooled_close d s3
    simp only
    omega

theorem read_pool {σ : Type} (d : Driver σ) (req : ReadRequest) (p : Pool σ) :
    (∃ st, checkAPI req.Api = some st ∧ (Read (pooled d) req (World.start p)).2.db = p) ∨
    (checkAPI req.Api = none ∧ ∃ e s1, (pooled d).conn p = (.error e, s1) ∧
      (Read (pooled d) req (World.start p)).2.db = s1) ∨
    (checkAPI req.Api = none ∧ ∃ u s1, (pooled d).conn p = (.ok u, s1) ∧
      (Read (pooled d) req (World.start p)).2.db.leased = s1.leased ∧
      (Read (pooled d) req (World.start p)).2.db.released = s1.released + 1) := by
  rcases read_runs (pooled d) req p with ⟨st, h0, hR⟩ | ⟨h0, e, s1, hc, hR⟩ |
    ⟨h0, u, s1, e, s2, hc, h1, hR⟩ | ⟨h0, u, s1, rows, s2, hc, h1, hR⟩
  · exact Or.inl ⟨st, h0, by rw [hR]⟩
  · exact Or.inr (Or.inl ⟨h0, e, s1, hc, by rw [hR]⟩)
  · refine Or.inr (Or.inr ⟨h0, u, s1, hc, ?_⟩)
    rw [hR]
    have a1 := pooled_query d _ _ _ _ h1
    have a2 := pooled_close d s2
    simp only
    omega
  · refine Or.inr (Or.inr ⟨h0, u, s1, hc, ?_⟩)
    rw [hR]
    have a1 := pooled_query d _ _ _ _ h1
    have a2 := pooled_close d s2
    simp only
    omega

theorem update_pool {σ : Type} (d : Driver σ) (req : UpdateRequest) (p : Pool σ) :
    (∃ st, checkAPI req.Api = some st ∧ (Update (pooled d) req (World.start p)).2.db = p) ∨
    (checkAPI req.Api = none ∧ ∃ e s1, (pooled d).conn p = (.error e, s1) ∧
      (Update (pooled d) req (World.start p)).2.db = s1) ∨
    (checkAPI req.Api = none ∧ ∃ u s1, (pooled d).conn p = (.ok u, s1) ∧
      (Update (pooled d) req (World.start p)).2.db.leased = s1.leased ∧
      (Update (pooled d) req (World.start p)).2.db.released = s1.released + 1) := by
  rcases update_runs (pooled d) req p with ⟨st, h0, hR⟩ | ⟨h0, e, s1, hc, hR⟩ |
    ⟨h0, u, s1, hc, -, hR⟩ | ⟨h0, u, s1, p1, e, hc, -, -, hR⟩ |
    ⟨h0, u, s1, p1, r, s2, hc, -, -, h1, hR⟩
  · exact Or.inl ⟨st, h0, by rw [hR]⟩
  · exact Or.inr (Or.inl ⟨h0, e, s1, hc, by rw [hR]⟩)
  · exact Or.inr (Or.inr ⟨h0, u, s1, hc, by rw [hR]; exact pooled_close d s1⟩)
  · exact Or.inr (Or.inr ⟨h0, u, s1, hc, by rw [hR]; exact pooled_close d s1⟩)
  · refine Or.inr (Or.inr ⟨h0, u, s1, hc, ?_⟩)
    rw [hR]
    have a1 := pooled_exec d _ _ _ _ h1
    have a2 := pooled_close d s2
    simp only
    omega

theorem delete_pool {σ : Type} (d : Driver σ) (req : DeleteRequest) (p : Pool σ) :
    (∃ st, checkAPI req.Api = some st ∧ (Delete (pooled d) req (World.start p)).2.db = p) ∨
    (checkAPI req.Api = none ∧ ∃ e s1, (pooled d).conn p = (.error e, s1) ∧
      (Delete (pooled d) req (World.start p)).2.db = s1) ∨
    (checkAPI req.Api = none ∧ ∃ u s1, (pooled d).conn p = (.ok u, s1) ∧
      (Delete (pooled d) req (World.start p)).2.db.leased = s1.leased ∧
      (Delete (pooled d) req (World.start p)).2.db.released = s1.released + 1) := by
  rcases delete_runs (pooled d) req p with ⟨st, h0, hR⟩ | ⟨h0, e, s1, hc, hR⟩ |
    ⟨h0, u, s1, r, s2, hc, h1, hR⟩
  · exact Or.inl ⟨st, h0, by rw [hR]⟩
  · exact Or.inr (Or.inl ⟨h0, e, s1, hc, by rw [hR]⟩)
  · refine Or.inr (Or.inr ⟨h0, u, s1, hc, ?_⟩)
    rw [hR]
    have a1 := pooled_exec d _ _ _ _ h1
    have a2 := pooled_close d s2
    simp only
    omega

theorem readAll_pool {σ : Type} (d : Driver σ) (req : ReadAllRequest) (p : Pool σ) :
    (∃ st, checkAPI req.Api = some st ∧ (ReadAll (pooled d) req (World.start p)).2.db = p) ∨
    (checkAPI req.Api = none ∧ ∃ e s1, (pooled d).conn p = (.error e, s1) ∧
      (ReadAll (pooled d) req (World.start p)).2.db = s1) ∨
    (checkAPI req.Api = none ∧ ∃ u s1, (pooled d).conn p = (.ok u, s1) ∧
      (ReadAll (pooled d) req (World.start p)).2.db.leased = s1.leased ∧
      (ReadAll (pooled d) req (World.start p)).2.db.released = s1.released + 1) := by
  rcases readAll_runs (pooled d) req p with ⟨st, h0, hR⟩ | ⟨h0, e, s1, hc, hR⟩ |
    ⟨h0, u, s1, e, s2, hc, h1, hR⟩ | ⟨h0, u, s1, rows, s2, hc, h1, hR⟩
  · exact Or.inl ⟨st, h0, by rw [hR]⟩
  · exact Or.inr (Or.inl ⟨h0, e, s1, hc, by rw [hR]⟩)
  · refine Or.inr (Or.inr ⟨h0, u, s1, hc, ?_⟩)
    rw [hR]
    have a1 := pooled_query d _ _ _ _ h1
    have a2 := pooled_close d s2
    simp only
    omega
  · refine Or.inr (Or.inr ⟨h0, u, s1, hc, ?_⟩)
    rw [hR]
    have a1 := pooled_query d _ _ _ _ h1
    have a2 := pooled_close d s2
    simp only
    omega

/-- C12, counterexample: the request of the test "Unsupported API" (api "v1000") returns
without a lease: the pool has handed out no connection, not one. -/
theorem rejected_version_leases_nothing :
    (serve (pooled (stubDriver (.ok ()) (fun _ => .error "") (fun _ => .error "")))
      (.create ⟨"v1000", some ⟨0, "Name", "", "", "", "", "Description", some ⟨1, -1⟩⟩⟩)
      (World.start ⟨(), 0, 0⟩)).2.db.leased = 0 ∧
    (serve (pooled (stubDriver (.ok ()) (fun _ => .error "") (fun _ => .error "")))
      (.create ⟨"v1000", some ⟨0, "Name", "", "", "", "", "Description", some ⟨1, -1⟩⟩⟩)
      (World.start ⟨(), 0, 0⟩)).2.db.leased ≠ 1 := by
  decide

/-- C12, amended: over a pool that counts leases and releases, every request of each of the
five operations leaves the pool with as many new releases as new leases, on every exit path
(success, malformed timestamp, storage error, panic); it leases at most one connection, and
it leases exactly one precisely when its api version is accepted and the pool grants the
connection; a request with a rejected version, or one whose lease is refused, leases and
releases nothing. -/
theorem lease_and_release {σ : Type} (d : Driver σ) (req : Request) (p : Pool σ) :
    (serve (pooled d) req (World.start p)).2.db.leased + p.released =
      (serve (pooled d) req (World.start p)).2.db.released + p.leased ∧
    ((serve (pooled d) req (World.start p)).2.db.leased = p.leased ∨
      (serve (pooled d) req (World.start p)).2.db.leased = p.leased + 1) ∧
    ((serve (pooled d) req (World.start p)).2.db.leased = p.leased + 1 ↔
      (req.Api = "" ∨ req.Api = "v1") ∧ ∃ u, (d.conn p.db).1 = .ok u) := by
  cases req with
  | create r => exact pool_step r.Api d p _ (create_pool d r p)
  | read r => exact pool_step r.Api d p _ (read_pool d r p)
  | update r => exact pool_step r.Api d p _ (update_pool d r p)
  | delete r => exact pool_step r.Api d p _ (delete_pool d r p)
  | readAll r => exact pool_step r.Api d p _ (readAll_pool d r p)

/-- C12, witness: a Delete with api "v1" on a pool that grants the connection leases one
connection and releases one. -/
theorem lease_and_release_witness :
    (serve (pooled (stubDriver (.ok ()) (fun _ => .ok (Result.done 1 1)) (fun _ => .error "")))
      (.delete ⟨"v1", 1⟩) (World.start ⟨(), 0, 0⟩)).2.db.leased = 0 + 1 ∧
    (serve (pooled (stubDriver (.ok ()) (fun _ => .ok (Result.done 1 1)) (fun _ => .error "")))
      (.delete ⟨"v1", 1⟩) (World.start ⟨(), 0, 0⟩)).2.db.released = 1 :=
  ⟨(lease_and_release (stubDriver (.ok ()) (fun _ => .ok (Result.done 1 1))
      (fun _ => .error "")) (.delete ⟨"v1", 1⟩) ⟨(), 0, 0⟩).2.2.mpr ⟨Or.inr rfl, (), rfl⟩,
   by decide⟩

/-! ## The causes of the status codes -/

@[simp]
theorem failed_conn_ok (u : Unit) :
    Event.failed (.conn (.ok u)) = false := rfl

@[simp]
theorem failed_conn_error (e : String) :
    Event.failed (.conn (.error e)) = true := rfl

@[simp]
theorem failed_close :
    Event.failed .close = false := rfl

@[simp]
theorem failed_rowsClose :
    Event.failed .rowsClose = false := rfl

@[simp]
theorem failed_probe (r : Except String Result) :
    Event.failed (.exec .probe r) = false := rfl

@[simp]
theorem failed_createTable_ok (r : Result) :
    Event.failed (.exec .createTable (.ok r)) = false := rfl

@[simp]
theorem failed_createTable_error (e : String) :
    Event.failed (.exec .createTable (.error e)) = true := rfl

@[simp]
theorem failed_query_error (q : Query) (e : String) :
    Event.failed (.query q (.error e)) = true := by
  cases q <;> rfl

@[simp]
theorem noRows_conn (c : Except String Unit) :
    Event.noRows (.conn c) = false := rfl

@[simp]
theorem noRows_close :
    Event.noRows .close = false := rfl

@[simp]
theorem noRows_rowsClose :
    Event.noRows .rowsClose = false := rfl

@[simp]
theorem noRows_probe (r : Except String Result) :
    Event.noRows (.exec .probe r) = false := rfl

@[simp]
theorem noRows_createTable (r : Except String Result) :
    Event.noRows (.exec .createTable r) = false := rfl

@[simp]
theorem noRows_insert (a1 a2 a3 a4 a5 a6 : String) (a7 : Time) (r : Except String Result) :
    Event.noRows (.exec (.insert a1 a2 a3 a4 a5 a6 a7) r) = false := rfl

@[simp]
theorem noRows_query_error (q : Query) (e : String) :
    Event.noRows (.query q (.error e)) = false := by
  cases q <;> rfl

@[simp]
theorem noRows_selectAll (rows : Except String Rows) :
    Event.noRows (.query .selectAll rows) = false := rfl

@[simp]
theorem unchecked_conn (c : Except String Unit) :
    Event.unchecked (.conn c) = false := rfl

@[simp]
theorem unchecked_close :
    Event.unchecked .close = false := rfl

@[simp]
theorem unchecked_rowsClose :
    Event.unchecked .rowsClose = false := rfl

@[simp]
theorem unchecked_exec (st : Stmt) (r : Except String Result) :
    Event.unchecked (.exec st r) = false := rfl

@[simp]
theorem unchecked_query_error (q : Query) (e : String) :
    Event.unchecked (.query q (.error e)) = false := by
  cases q <;> rfl

@[simp]
theorem unchecked_selectAll (rows : Except String Rows) :
    Event.unchecked (.query .selectAll rows) = false := rfl

theorem create_step (f : Bool) (req : CreateRequest) (w : World DB) :
    ((Create (tableDriver f) req w).2.db = w.db ∧
      ∀ N, (Create (tableDriver f) req w).1 ≠ .ok ⟨"v1", N⟩) ∨
    (∃ p ts t, req.Product = some p ∧ p.Date = some ts ∧
      ptypes.validateTimestamp (some ts) = none ∧
      (w.db.table = some t ∨ (w.db.table = none ∧ t = ⟨[], 1⟩)) ∧
      t.rows.any (fun r => r.ID = t.nextID) = false ∧
      (Create (tableDriver f) req w).1 = .ok ⟨"v1", t.nextID⟩ ∧
      (Create (tableDriver f) req w).2.db =
        ⟨some ⟨t.rows ++ [⟨t.nextID, p.Name, p.Price, p.Creator, p.Unit, p.Category,
          p.Description, ⟨ts.Seconds, 0⟩⟩], t.nextID + 1⟩⟩) := by
  obtain ⟨api, prod⟩ := req
  rcases ha : checkAPI api with _ | st
  · rcases prod with _ | p
    · left
      simp [Create, ha, connect, tableDriver, Create.body, Close]
    · rcases hd : p.Date with _ | ts
      · left
        simp [Create, ha, connect, tableDriver, Create.body, Close, hd, ptypes.Timestamp,
          ptypes.validateTimestamp]
      · rcases hv : ptypes.validateTimestamp (some ts) with _ | e
        · rcases hw : w.db with ⟨_ | t⟩
          · right
            obtain ⟨h1, h2⟩ := Create.on_missing_table f api p ts w ha hd hv hw
            exact ⟨p, ts, ⟨[], 1⟩, rfl, hd, hv, Or.inr ⟨rfl, rfl⟩, rfl, h1, h2⟩
          · obtain ⟨hdup, hnew⟩ := create_on_table f api p ts w t ha hd hv hw
            rcases hany : t.rows.any (fun r => r.ID = t.nextID) with _ | _
            · right
              obtain ⟨h1, h2⟩ := hnew hany
              exact ⟨p, ts, t, rfl, hd, hv, Or.inl rfl, hany, h1, h2⟩
            · left
              have hcode := hdup hany
              constructor
              · have ht := ptypes.Timestamp_valid ts hv
                simp [Create, ha, connect, tableDriver, Create.body, hd, ht, ExecContext,
                  DB.exec, hw, Create.insert, hany, Close]
              · intro N hN
                rw [hN] at hcode
                simp [Outcome.code] at hcode
        · left
          simp [Create, ha, connect, tableDriver, Create.body, Close, hd, ptypes.Timestamp, hv]
  · left
    simp [Create, ha]

theorem update_step (f : Bool) (req : UpdateRequest) (w : World DB) :
    (Update (tableDriver f) req w).2.db = w.db ∨
    (∃ p ts t, req.Product = some p ∧ ptypes.validateTimestamp (some ts) = none ∧
      w.db = ⟨some t⟩ ∧
      (Update (tableDriver f) req w).2.db =
        ⟨some ⟨t.rows.map (Table.updateRow p.Name p.Price p.Unit p.Category p.Creator
          p.Description (time.Unix ts.Seconds ts.Nanos) p.Id), t.nextID⟩⟩) := by
  obtain ⟨api, prod⟩ := req
  rcases ha : checkAPI api with _ | st
  · rcases prod with _ | p
    · left
      simp [Update, ha, connect, tableDriver, Update.body, Close]
    · rcases hd : p.Date with _ | ts
      · left
        simp [Update, ha, connect, tableDriver, Update.body, Close, hd, ptypes.Timestamp,
          ptypes.validateTimestamp]
      · rcases hv : ptypes.validateTimestamp (some ts) with _ | e
        · rcases hw : w.db with ⟨_ | t⟩
          · left
            have ht := ptypes.Timestamp_valid ts hv
            simp [Update, ha, connect, tableDriver, Update.body, hd, ht, ExecContext, DB.exec,
              hw, Close]
          · right
            exact ⟨p, ts, t, rfl, hv, rfl, (update_on_table f api p ts w t ha hd hv hw).2⟩
        · left
          simp [Update, ha, connect, tableDriver, Update.body, Close, hd, ptypes.Timestamp, hv]
  · left
    simp [Update, ha]

theorem delete_step (f : Bool) (req : DeleteRequest) (w : World DB) :
    (Delete (tableDriver f) req w).2.db = w.db ∨
    (∃ t, w.db = ⟨some t⟩ ∧
      (Delete (tableDriver f) req w).2.db =
        ⟨some ⟨t.rows.filter (fun r => r.ID ≠ req.Id), t.nextID⟩⟩) := by
  rcases ha : checkAPI req.Api with _ | st
  · rcases hw : w.db with ⟨_ | t⟩
    · left
      simp [Delete, ha, connect, tableDriver, Delete.body, ExecContext, DB.exec, hw, Close]
    · right
      exact ⟨t, rfl, (delete_on_table f req.Api req.Id w t ha hw).2⟩
  · left
    simp [Delete, ha]

/-! ## Unique ids on the stores that the service reaches -/

theorem Table.sound_empty : Table.Sound ⟨[], 1⟩ := by
  refine ⟨?_, ?_, ?_⟩
  · simp [Table.Unique]
  · intro r hr; cases hr
  · intro r hr; cases hr

theorem Table.sound_insert (t : Table) (row : Row) (h : t.Sound)
    (hid : row.ID = t.nextID)
    (hdate : -62135596800 ≤ row.Date.sec ∧ row.Date.sec < 253402300800) :
    Table.Sound ⟨t.rows ++ [row], t.nextID + 1⟩ := by
  obtain ⟨hu, hb, hr⟩ := h
  refine ⟨?_, ?_, ?_⟩
  · simp only [Table.Unique, List.map_append, List.map_cons, List.map_nil]
    rw [List.nodup_append]
    refine ⟨hu, List.nodup_singleton _, ?_⟩
    intro a ha hb2
    rw [List.mem_singleton] at hb2
    obtain ⟨r, hr1, hr2⟩ := List.mem_map.mp ha
    have := hb r hr1
    omega
  · intro r hr1
    rcases List.mem_append.mp hr1 with h1 | h1
    · have := hb r h1
      simp only
      omega
    · rw [List.mem_singleton] at h1
      subst h1
      simp only
      omega
  · intro r hr1
    rcases List.mem_append.mp hr1 with h1 | h1
    · exact hr r h1
    · rw [List.mem_singleton] at h1
      subst h1
      exact hdate

theorem Table.sound_update (t : Table) (a1 a2 a3 a4 a5 a6 : String) (a7 : Time) (a8 : Int)
    (h : t.Sound)
    (hdate : -62135596800 ≤ (Table.stored a7).sec ∧ (Table.stored a7).sec < 253402300800) :
    Table.Sound ⟨t.rows.map (Table.updateRow a1 a2 a3 a4 a5 a6 a7 a8), t.nextID⟩ := by
  obtain ⟨hu, hb, hr⟩ := h
  have hid : (t.rows.map (Table.updateRow a1 a2 a3 a4 a5 a6 a7 a8)).map (fun r => r.ID) =
      t.rows.map (fun r => r.ID) := by
    rw [List.map_map]
    apply List.map_congr_left
    intro r _
    exact Table.updateRow_ID _ _ _ _ _ _ _ _ r
  refine ⟨?_, ?_, ?_⟩
  · simp only [Table.Unique]
    rw [hid]
    exact hu
  · intro r hr1
    obtain ⟨r0, h0, rfl⟩ := List.mem_map.mp hr1
    rw [Table.updateRow_ID]
    exact hb r0 h0
  · intro r hr1
    obtain ⟨r0, h0, rfl⟩ := List.mem_map.mp hr1
    unfold Table.updateRow
    split
    · exact hdate
    · exact hr r0 h0

theorem Table.sound_delete (t : Table) (id : Int) (h : t.Sound) :
    Table.Sound ⟨t.rows.filter (fun r => r.ID ≠ id), t.nextID⟩ := by
  obtain ⟨hu, hb, hr⟩ := h
  refine ⟨?_, ?_, ?_⟩
  · simp only [Table.Unique]
    exact List.Nodup.sublist (List.Sublist.map _ (List.filter_sublist _)) hu
  · intro r hr1
    exact hb r (List.mem_filter.mp hr1).1
  · intro r hr1
    exact hr r (List.mem_filter.mp hr1).1

theorem reachable_sound (f : Bool) (db : DB) (h : Reachable f db) :
    ∀ t, db.table = some t → t.Sound := by
  induction h with
  | missing => intro t ht; cases ht
  | empty =>
    intro t ht
    simp only [Option.some.injEq] at ht
    subst ht
    exact Table.sound_empty
  | create w req _ ih =>
    intro t1 ht1
    rcases create_step f req w with ⟨h1, -⟩ | ⟨p, ts, t, -, -, hv, ht, -, -, h2⟩
    · rw [h1] at ht1
      exact ih t1 ht1
    · rw [h2] at ht1
      simp only [Option.some.injEq] at ht1
      subst ht1
      have hvr := (ptypes.validate_none ts).mp hv
      have hs : t.Sound := by
        rcases ht with ht | ⟨-, rfl⟩
        · exact ih t ht
        · exact Table.sound_empty
      exact Table.sound_insert t _ hs rfl ⟨hvr.1, hvr.2.1⟩
  | update w req _ ih =>
    intro t1 ht1
    rcases update_step f req w with h1 | ⟨p, ts, t, -, hv, hw, h2⟩
    · rw [h1] at ht1
      exact ih t1 ht1
    · rw [h2] at ht1
      simp only [Option.some.injEq] at ht1
      subst ht1
      have hvr := (ptypes.validate_none ts).mp hv
      have hs : t.Sound := ih t (by rw [hw])
      refine Table.sound_update t _ _ _ _ _ _ _ _ hs ?_
      rw [Table.stored_Unix ts hv]
      exact ⟨hvr.1, hvr.2.1⟩
  | delete w req _ ih =>
    intro t1 ht1
    rcases delete_step f req w with h1 | ⟨t, hw, h2⟩
    · rw [h1] at ht1
      exact ih t1 ht1
    · rw [h2] at ht1
      simp only [Option.some.injEq] at ht1
      subst ht1
      exact Table.sound_delete t _ (ih t (by rw [hw]))

theorem Table.filter_cases (rows : List Row) (id : Int)
    (hu : (rows.map (fun r => r.ID)).Nodup) :
    rows.filter (fun r => r.ID = id) = [] ∨
      ∃ r ∈ rows, r.ID = id ∧ rows.filter (fun r => r.ID = id) = [r] := by
  by_cases h : ∃ r ∈ rows, r.ID = id
  · obtain ⟨r, hr, hid⟩ := h
    right
    refine ⟨r, hr, hid, ?_⟩
    have := Table.filter_unique rows r hu hr
    rw [hid] at this
    exact this
  · left
    rw [List.filter_eq_nil_iff]
    intro r hr hid
    exact h ⟨r, hr, by simpa using hid⟩

theorem Table.update_ids (a1 a2 a3 a4 a5 a6 : String) (a7 : Time) (a8 : Int)
    (rows : List Row) :
    (rows.map (Table.updateRow a1 a2 a3 a4 a5 a6 a7 a8)).map (fun r => r.ID) =
      rows.map (fun r => r.ID) := by
  rw [List.map_map]
  apply List.map_congr_left
  intro r _
  exact Table.updateRow_ID _ _ _ _ _ _ _ _ r

/-- C14, counterexample: the database without the table `Product` is the store before the
first Create; there Read of id 1 fails with Unknown, which is neither NotFound nor a
product. -/
theorem read_before_first_create :
    Reachable false ⟨none⟩ ∧
    (Read (tableDriver false) ⟨"v1", 1⟩ (World.start ⟨none⟩)).1.code = some .Unknown ∧
    (Read (tableDriver false) ⟨"v1", 1⟩ (World.start ⟨none⟩)).1.code ≠ some .NotFound :=
  ⟨Reachable.missing, by decide, by decide⟩

/-- C14, amended: Create returns an id that no stored row holds, Update leaves the ids of the
rows as they are, Delete only removes rows; every table reached from the database without
the table, or from the empty table, by Create, Update and Delete requests keeps its ids
unique; and on every such store that has the table, Read of any id returns NotFound or
exactly the one row with that id, never the error of several rows.  While the table is
missing (before the first successful Create) Read fails with Unknown because its query
fails. -/
theorem unique_ids_on_reachable_stores (f : Bool) :
    (∀ (w : World DB) (req : CreateRequest) (t : Table) (N : Int), w.db.table = some t →
      (Create (tableDriver f) req w).1 = .ok ⟨"v1", N⟩ → ∀ r ∈ t.rows, r.ID ≠ N) ∧
    (∀ (w : World DB) (req : UpdateRequest) (t : Table), w.db.table = some t →
      ∃ t1, (Update (tableDriver f) req w).2.db.table = some t1 ∧
        t1.rows.map (fun r => r.ID) = t.rows.map (fun r => r.ID)) ∧
    (∀ (w : World DB) (req : DeleteRequest) (t : Table), w.db.table = some t →
      ∃ t1, (Delete (tableDriver f) req w).2.db.table = some t1 ∧
        t1.rows.Sublist t.rows) ∧
    (∀ db, Reachable f db → ∀ t, db.table = some t → t.Unique) ∧
    (∀ db, Reachable f db → ∀ t, db.table = some t →
      ∀ (w : World DB) (api : String) (id : Int), w.db = db → (api = "" ∨ api = "v1") →
      (Read (tableDriver f) ⟨api, id⟩ w).1.code = some .NotFound ∨
      ∃ r ∈ t.rows, r.ID = id ∧
        (Read (tableDriver f) ⟨api, id⟩ w).1 =
          .ok ⟨"v1", some ⟨r.ID, r.Name, r.Price, r.Creator, r.Unit, r.Category,
            r.Description, some ⟨r.Date.sec, r.Date.nsec.val⟩⟩⟩) ∧
    (∀ (w : World DB) (api : String) (id : Int), w.db = ⟨none⟩ → (api = "" ∨ api = "v1") →
      (Read (tableDriver f) ⟨api, id⟩ w).1.code = some .Unknown) := by
  refine ⟨?_, ?_, ?_, ?_, ?_, ?_⟩
  · intro w req t N hw hN r hr
    rcases create_step f req w with ⟨-, h1⟩ | ⟨p, ts, t1, -, -, -, ht, hany, hout, -⟩
    · exact absurd hN (h1 N)
    · rw [hout] at hN
      simp only [Outcome.ok.injEq, CreateResponse.mk.injEq, true_and] at hN
      rcases ht with ht | ⟨ht, -⟩
      · rw [hw] at ht
        simp only [Option.some.injEq] at ht
        subst ht
        subst hN
        intro hid
        have : t.rows.any (fun r => decide (r.ID = t.nextID)) = true :=
          List.any_eq_true.mpr ⟨r, hr, by simpa using hid⟩
        rw [hany] at this
        cases this
      · rw [hw] at ht
        cases ht
  · intro w req t hw
    rcases update_step f req w with h1 | ⟨p, ts, t1, -, -, hw1, h2⟩
    · exact ⟨t, by rw [h1, hw], rfl⟩
    · rw [hw1] at hw
      simp only [Option.some.injEq] at hw
      subst hw
      exact ⟨_, by rw [h2], Table.update_ids _ _ _ _ _ _ _ _ _⟩
  · intro w req t hw
    rcases delete_step f req w with h1 | ⟨t1, hw1, h2⟩
    · exact ⟨t, by rw [h1, hw], List.Sublist.refl _⟩
    · rw [hw1] at hw
      simp only [Option.some.injEq] at hw
      subst hw
      exact ⟨_, by rw [h2], List.filter_sublist _⟩
  · intro db h t ht
    exact (reachable_sound f db h t ht).1
  · intro db h t ht w api id hw hapi
    have ha : checkAPI api = none := (checkAPI_eq_none api).mpr hapi
    obtain ⟨hu, -, hr⟩ := reachable_sound f db h t ht
    have hw2 : w.db = ⟨some t⟩ := by
      rw [hw]
      cases db
      simp only at ht
      rw [ht]
    rw [(read_on_table f api id w t ha hw2).1]
    rcases Table.filter_cases t.rows id hu with h0 | ⟨r, hr1, hid, h1⟩
    · left
      rw [h0]
      simp [Read.rows, Outcome.code]
    · right
      refine ⟨r, hr1, hid, ?_⟩
      rw [h1]
      exact Read.rows_single _ r (hr r hr1).1 (hr r hr1).2
  · intro w api id hw hapi
    have ha : checkAPI api = none := (checkAPI_eq_none api).mpr hapi
    simp [Read, ha, connect, tableDriver, Read.body, QueryContext, DB.query, hw, Outcome.code]

/-- C14, witness: on the store reached by the Create of the client from the database without
the table, Read of id 1 returns the one row with that id. -/
theorem unique_ids_on_reachable_stores_witness :
    (Read (tableDriver false) ⟨"v1", 1⟩
      (Create (tableDriver false)
        ⟨"v1", some ⟨0, "Potato", "5", "Marty", "Kg", "vegetable", "Buy my Potato",
          some ⟨1600000000, 0⟩⟩⟩ (World.start ⟨none⟩)).2).1.code = some .NotFound ∨
    ∃ r ∈ [(⟨1, "Potato", "5", "Marty", "Kg", "vegetable", "Buy my Potato",
        ⟨1600000000, 0⟩⟩ : Row)], r.ID = 1 ∧
      (Read (tableDriver false) ⟨"v1", 1⟩
        (Create (tableDriver false)
          ⟨"v1", some ⟨0, "Potato", "5", "Marty", "Kg", "vegetable", "Buy my Potato",
            some ⟨1600000000, 0⟩⟩⟩ (World.start ⟨none⟩)).2).1 =
        .ok ⟨"v1", some ⟨r.ID, r.Name, r.Price, r.Creator, r.Unit, r.Category,
          r.Description, some ⟨r.Date.sec, r.Date.nsec.val⟩⟩⟩ :=
  (unique_ids_on_reachable_stores false).2.2.2.2.1 _
    (Reachable.create (World.start ⟨none⟩)
      ⟨"v1", some ⟨0, "Potato", "5", "Marty", "Kg", "vegetable", "Buy my Potato",
        some ⟨1600000000, 0⟩⟩⟩ Reachable.missing)
    ⟨[⟨1, "Potato", "5", "Marty", "Kg", "vegetable", "Buy my Potato", ⟨1600000000, 0⟩⟩], 2⟩
    (by decide) _ "v1" 1 rfl (Or.inr rfl)

end ProductService
